import Mathlib

/-!
# Node provisioning of `pkg/hetzner/hetzner_provider.go`

A shallow embedding of the `Provider` of `hetzner_provider.go`: the provisioning loop
`CreateNodes`, the resolve-or-create step `runCreateServer`, the role entry points and the
query `GetMasterNode`.

* Go `int` is modelled by `Int` with an explicit 64-bit two's-complement wrap (`wrapInt`).
* Go strings are modelled by Lean strings (valid UTF-8 only).
* The hcloud client is external: it is a parameter (`Client`), a record of state-passing
  functions over an arbitrary world state `W`.  Every call made to it is appended to a call
  log, so that theorems can speak about which requests were issued.
* A Go run-time panic is an explicit outcome (`Outcome.panic`).
* `log.Printf` output is not modelled.
-/

namespace Hetzner

/-! ## Go runtime helpers -/

/-- Two's-complement wrap of a mathematical integer into the range of a 64-bit Go `int`. -/
def wrapInt (x : Int) : Int :=
  (x + 9223372036854775808) % 18446744073709551616 - 9223372036854775808

/-- Left-pad a digit string with the character 0 up to `width` digits (the precision of an
integer verb of `fmt`). -/
def padZeros (width : Nat) (digits : List Char) : List Char :=
  List.replicate (width - digits.length) '0' ++ digits

/-- The Go call `fmt.Sprintf("%d", x)`. -/
def sprintfD (x : Int) : String :=
  if x < 0 then "-" ++ Nat.repr x.natAbs else Nat.repr x.natAbs

/-- The Go call `fmt.Sprintf("%.02d", x)`: precision 2, that is at least two digits, padded
with leading zeros, the sign in front. -/
def sprintfD02 (x : Int) : String :=
  if x < 0 then "-" ++ String.mk (padZeros 2 (Nat.repr x.natAbs).data)
  else String.mk (padZeros 2 (Nat.repr x.natAbs).data)

/-- Does `old` occur in `s` (as a contiguous block)? -/
def occursIn (old : List Char) : List Char → Bool
  | [] => old.isEmpty
  | c :: cs => old.isPrefixOf (c :: cs) || occursIn old cs

/-- Replace the first occurrence of `old` in the character list by `new`. -/
def replaceFirst (old new : List Char) : List Char → List Char
  | [] => if old.isEmpty then new else []
  | c :: cs =>
    if old.isPrefixOf (c :: cs) then new ++ (c :: cs).drop old.length
    else c :: replaceFirst old new cs

/-- The Go call `strings.Replace(s, old, new, 1)`. -/
def stringsReplace1 (s old new : String) : String :=
  String.mk (replaceFirst old.data new.data s.data)

/-! ## Data model -/

/-- The struct `clustermanager.Node`; its field `Type` is written `Type_`. -/
structure Node where
  Name : String
  Type_ : String
  IsMaster : Bool
  IsEtcd : Bool
  IPAddress : String
  PrivateIPAddress : String
  SSHKeyName : String
deriving DecidableEq, Repr

/-- A Go `error` value: either a value of the struct type `hcloud.Error` (the structured API
error, with its `Code` and `Message`), or a value of any other dynamic type. -/
inductive GoError where
  | hcloud (code : String) (message : String)
  | other (message : String)
deriving DecidableEq, Repr

/-- The kinds of run-time panic the modelled code can raise. -/
inductive PanicKind where
  | divideByZero
  | indexOutOfRange
  | interfaceConversion
  | nilDereference
deriving DecidableEq, Repr

/-- Result of a Go function returning `(value, error)`: `ok v` is `(v, nil)`, `err e` is
`(nil, e)`, and `panic k` is a run-time panic unwinding the call. -/
inductive Outcome (α : Type) where
  | ok (value : α)
  | err (e : GoError)
  | panic (kind : PanicKind)
deriving DecidableEq, Repr

/-- The struct `hcloud.SSHKey`. -/
structure SSHKey where
  ID : Int
  Name : String
  Fingerprint : String
  PublicKey : String
deriving DecidableEq, Repr

/-- The struct `hcloud.Action` (identity only). -/
structure Action where
  ID : Int
deriving DecidableEq, Repr

/-- The struct `hcloud.Server`, restricted to what the provider reads: the name and the
rendering `PublicNet.IPv4.IP.String()` of the public address. -/
structure Server where
  Name : String
  PublicIPv4 : String
deriving DecidableEq, Repr

/-- The struct `hcloud.ServerCreateOpts`, restricted to the fields the provider sets.
`ServerType`, `Image` and `Datacenter` hold the `Name` of the pointed-to record. -/
structure ServerCreateOpts where
  Name : String
  ServerType : String
  Image : String
  SSHKeys : List (Option SSHKey)
  UserData : String
  Datacenter : Option String
deriving DecidableEq, Repr

/-- The struct `hcloud.ServerCreateResult`; both fields are pointers and may be nil. -/
structure ServerCreateResult where
  Action : Option Action
  Server : Option Server
deriving DecidableEq, Repr

/-- One request issued to the outside world. -/
inductive Call where
  | sshKeyGet (name : String)
  | readFile (path : String)
  | serverGetByName (name : String)
  | serverCreate (opts : ServerCreateOpts)
  | serverGet (idOrName : String)
  | awaitAction (action : Option Action)
deriving DecidableEq, Repr

/-- The external collaborators of the provider, as state-passing functions over a world
state `W`: the hcloud client (`SSHKey.Get`, `Server.GetByName`, `Server.Create`,
`Server.Get`), `ioutil.ReadFile`, and the terminal value that `waitAction` delivers on its
error channel (`none` is a nil error). -/
structure Client (W : Type) where
  SSHKeyGet : String → W → Except GoError (Option SSHKey) × W
  ReadFile : String → W → Except GoError String × W
  ServerGetByName : String → W → Except GoError (Option Server) × W
  ServerCreate : ServerCreateOpts → W → Except GoError ServerCreateResult × W
  ServerGet : String → W → Except GoError (Option Server) × W
  waitAction : Option Action → W → Option GoError × W

/-- The world state together with the log of all requests issued so far. -/
structure Cloud (W : Type) where
  state : W
  calls : List Call

/-- The struct `Provider` (the client and the context are passed separately). -/
structure Provider where
  nodes : List Node
  clusterName : String
  cloudInitFile : String
  wait : Bool
  token : String
deriving DecidableEq, Repr

/-! ## Operations -/

variable {W : Type}

/-- The method `Provider.actionProgress`: blocks until `waitAction` delivers the terminal
value on its error channel and returns it (the progress bar is presentation only). -/
def actionProgress (cl : Client W) (action : Option Action) (c : Cloud W) :
    Option GoError × Cloud W :=
  ((cl.waitAction action c.state).1,
    ⟨(cl.waitAction action c.state).2, c.calls ++ [Call.awaitAction action]⟩)

/-- The method `Provider.runCreateServer`. -/
def runCreateServer (cl : Client W) (opts : ServerCreateOpts) (p : Provider) (c : Cloud W) :
    Outcome ServerCreateResult × Provider × Cloud W :=
  match cl.ServerGetByName opts.Name c.state with
  | (Except.error err, w1) =>
    (Outcome.err err, p, ⟨w1, c.calls ++ [Call.serverGetByName opts.Name]⟩)
  | (Except.ok (some server), w1) =>
    (Outcome.ok ⟨none, some server⟩, p, ⟨w1, c.calls ++ [Call.serverGetByName opts.Name]⟩)
  | (Except.ok none, w1) =>
    match cl.ServerCreate opts w1 with
    | (Except.error (GoError.hcloud code message), w2) =>
      if code = "uniqueness_error" then
        match cl.ServerGet opts.Name w2 with
        | (Except.error err, w3) =>
          (Outcome.err err, p,
            ⟨w3, c.calls ++ [Call.serverGetByName opts.Name, Call.serverCreate opts,
              Call.serverGet opts.Name]⟩)
        | (Except.ok server, w3) =>
          (Outcome.ok ⟨none, server⟩, p,
            ⟨w3, c.calls ++ [Call.serverGetByName opts.Name, Call.serverCreate opts,
              Call.serverGet opts.Name]⟩)
      else
        (Outcome.err (GoError.hcloud code message), p,
          ⟨w2, c.calls ++ [Call.serverGetByName opts.Name, Call.serverCreate opts]⟩)
    | (Except.error (GoError.other _), w2) =>
      (Outcome.panic PanicKind.interfaceConversion, p,
        ⟨w2, c.calls ++ [Call.serverGetByName opts.Name, Call.serverCreate opts]⟩)
    | (Except.ok result, w2) =>
      match actionProgress cl result.Action
          ⟨w2, c.calls ++ [Call.serverGetByName opts.Name, Call.serverCreate opts]⟩ with
      | (some err, c3) => (Outcome.err err, p, c3)
      | (none, c3) => (Outcome.ok result, { p with wait := true }, c3)

/-- The value `serverNameTemplate` of `CreateNodes`:
`fmt.Sprintf("%s-%s-@idx", provider.clusterName, suffix)`. -/
def serverNameTemplate (clusterName suffix : String) : String :=
  clusterName ++ "-" ++ suffix ++ "-@idx"

/-- The name given to node number `nodeNumber`:
`strings.Replace(serverNameTemplate, "@idx", fmt.Sprintf("%.02d", nodeNumber), 1)`. -/
def serverName (clusterName suffix : String) (nodeNumber : Int) : String :=
  stringsReplace1 (serverNameTemplate clusterName suffix) "@idx" (sprintfD02 nodeNumber)

/-- The last block of the private address (lines 90 to 96 of the source). -/
def privateIpLastBlock (template : Node) (nodeNumber : Int) : Int :=
  if !template.IsEtcd then
    if !template.IsMaster then wrapInt (wrapInt (nodeNumber + 10) + 10)
    else wrapInt (nodeNumber + 10)
  else nodeNumber

/-- The rendered private address `fmt.Sprintf("10.0.1.%d", privateIpLastBlock)`. -/
def privateIpAddress (template : Node) (nodeNumber : Int) : String :=
  "10.0.1." ++ sprintfD (privateIpLastBlock template nodeNumber)

/-- The index expression `datacenters[i%datacentersCount]` with its two run-time checks. -/
def datacenterAt (datacenters : List String) (i : Nat) : Outcome String :=
  if datacenters.length = 0 then Outcome.panic PanicKind.divideByZero
  else
    match datacenters[i % datacenters.length]? with
    | some d => Outcome.ok d
    | none => Outcome.panic PanicKind.indexOutOfRange

/-- The value `serverOptsTemplate` of `CreateNodes` once the key and the cloud-init file
have been read. -/
def serverOptsTemplate (clusterName suffix : String) (template : Node)
    (sshKey : Option SSHKey) (userData : String) : ServerCreateOpts :=
  { Name := serverNameTemplate clusterName suffix
    ServerType := template.Type_
    Image := "ubuntu-16.04"
    SSHKeys := [sshKey]
    UserData := userData
    Datacenter := none }

/-- The value `serverOpts` of iteration `i` of the loop of `CreateNodes` (lines 71 to 77). -/
def serverOptsAt (optsTemplate : ServerCreateOpts) (clusterName suffix : String)
    (datacenters : List String) (offset : Int) (i : Nat) : Outcome ServerCreateOpts :=
  match datacenterAt datacenters i with
  | Outcome.ok d =>
    Outcome.ok { optsTemplate with
      Name := serverName clusterName suffix (wrapInt ((i : Int) + offset))
      Datacenter := some d }
  | Outcome.err e => Outcome.err e
  | Outcome.panic k => Outcome.panic k

/-- The node record assembled at lines 99 to 107. -/
def nodeRecord (serverOpts : ServerCreateOpts) (template : Node) (ipAddress : String)
    (nodeNumber : Int) : Node :=
  { Name := serverOpts.Name
    Type_ := serverOpts.ServerType
    IsMaster := template.IsMaster
    IsEtcd := template.IsEtcd
    IPAddress := ipAddress
    PrivateIPAddress := privateIpAddress template nodeNumber
    SSHKeyName := template.SSHKeyName }

/-- One iteration of the loop of `CreateNodes` up to the assembled node (lines 71 to 107). -/
def createNodeAt (cl : Client W) (optsTemplate : ServerCreateOpts) (clusterName suffix : String)
    (template : Node) (datacenters : List String) (offset : Int) (i : Nat)
    (p : Provider) (c : Cloud W) : Outcome Node × Provider × Cloud W :=
  match serverOptsAt optsTemplate clusterName suffix datacenters offset i with
  | Outcome.panic k => (Outcome.panic k, p, c)
  | Outcome.err e => (Outcome.err e, p, c)
  | Outcome.ok serverOpts =>
    match runCreateServer cl serverOpts p c with
    | (Outcome.panic k, p1, c1) => (Outcome.panic k, p1, c1)
    | (Outcome.err e, p1, c1) => (Outcome.err e, p1, c1)
    | (Outcome.ok result, p1, c1) =>
      match result.Server with
      | none => (Outcome.panic PanicKind.nilDereference, p1, c1)
      | some server =>
        (Outcome.ok (nodeRecord serverOpts template server.PublicIPv4
          (wrapInt ((i : Int) + offset))), p1, c1)

/-- The loop `for i := 1; i <= count; i++` of `CreateNodes`, started at counter `i` with
`remaining` iterations to go and the batch `nodes` collected so far.  The counter is a
natural number: it agrees with the Go counter as long as `count < 2^63 - 1`. -/
def createNodesLoop (cl : Client W) (optsTemplate : ServerCreateOpts)
    (clusterName suffix : String) (template : Node) (datacenters : List String)
    (offset : Int) : Nat → Nat → List Node → Provider → Cloud W →
    Outcome (List Node) × Provider × Cloud W
  | 0, _, nodes, p, c => (Outcome.ok nodes, p, c)
  | remaining + 1, i, nodes, p, c =>
    match createNodeAt cl optsTemplate clusterName suffix template datacenters offset i p c with
    | (Outcome.panic k, p1, c1) => (Outcome.panic k, p1, c1)
    | (Outcome.err e, p1, c1) => (Outcome.err e, p1, c1)
    | (Outcome.ok node, p1, c1) =>
      createNodesLoop cl optsTemplate clusterName suffix template datacenters offset
        remaining (i + 1) (nodes ++ [node]) { p1 with nodes := p1.nodes ++ [node] } c1

/-- Lines 57 to 63 of `CreateNodes`: the user data read from the cloud-init file, if one is
set and readable. -/
def readUserData (cl : Client W) (p : Provider) (c : Cloud W) : String × Cloud W :=
  if p.cloudInitFile.length > 0 then
    match cl.ReadFile p.cloudInitFile c.state with
    | (Except.ok buf, w) => (buf, ⟨w, c.calls ++ [Call.readFile p.cloudInitFile]⟩)
    | (Except.error _, w) => ("", ⟨w, c.calls ++ [Call.readFile p.cloudInitFile]⟩)
  else ("", c)

/-- The method `Provider.CreateNodes`. -/
def CreateNodes (cl : Client W) (suffix : String) (template : Node) (datacenters : List String)
    (count : Int) (offset : Int) (p : Provider) (c : Cloud W) :
    Outcome (List Node) × Provider × Cloud W :=
  match cl.SSHKeyGet template.SSHKeyName c.state with
  | (Except.error err, w) =>
    (Outcome.err err, p, ⟨w, c.calls ++ [Call.sshKeyGet template.SSHKeyName]⟩)
  | (Except.ok sshKey, w) =>
    match readUserData cl p ⟨w, c.calls ++ [Call.sshKeyGet template.SSHKeyName]⟩ with
    | (userData, c1) =>
      createNodesLoop cl (serverOptsTemplate p.clusterName suffix template sshKey userData)
        p.clusterName suffix template datacenters offset count.toNat 1 [] p c1

/-- The zero value of `clustermanager.Node`. -/
def Node.zero : Node :=
  { Name := "", Type_ := "", IsMaster := false, IsEtcd := false, IPAddress := "",
    PrivateIPAddress := "", SSHKeyName := "" }

/-- The error part of a Go `(value, error)` return. -/
def Outcome.toError {α : Type} : Outcome α → Outcome Unit
  | Outcome.ok _ => Outcome.ok ()
  | Outcome.err e => Outcome.err e
  | Outcome.panic k => Outcome.panic k

/-- The template built by `CreateEtcdNodes`. -/
def etcdTemplate (sshKeyName masterServerType : String) : Node :=
  { Node.zero with SSHKeyName := sshKeyName, IsEtcd := true, Type_ := masterServerType }

/-- The template built by `CreateMasterNodes`. -/
def masterTemplate (sshKeyName masterServerType : String) (isEtcd : Bool) : Node :=
  { Node.zero with
    SSHKeyName := sshKeyName, IsMaster := true, Type_ := masterServerType, IsEtcd := isEtcd }

/-- The template built by `CreateWorkerNodes`. -/
def workerTemplate (sshKeyName workerServerType : String) : Node :=
  { Node.zero with SSHKeyName := sshKeyName, IsMaster := false, Type_ := workerServerType }

/-- The method `Provider.CreateEtcdNodes`; `ok ()` is a nil error. -/
def CreateEtcdNodes (cl : Client W) (sshKeyName masterServerType : String)
    (datacenters : List String) (count : Int) (p : Provider) (c : Cloud W) :
    Outcome Unit × Provider × Cloud W :=
  match CreateNodes cl "etcd" (etcdTemplate sshKeyName masterServerType) datacenters count 0
      p c with
  | (r, p1, c1) => (r.toError, p1, c1)

/-- The method `Provider.CreateMasterNodes`; `ok ()` is a nil error. -/
def CreateMasterNodes (cl : Client W) (sshKeyName masterServerType : String)
    (datacenters : List String) (count : Int) (isEtcd : Bool) (p : Provider) (c : Cloud W) :
    Outcome Unit × Provider × Cloud W :=
  match CreateNodes cl "master" (masterTemplate sshKeyName masterServerType isEtcd)
      datacenters count 0 p c with
  | (r, p1, c1) => (r.toError, p1, c1)

/-- The method `Provider.CreateWorkerNodes`. -/
def CreateWorkerNodes (cl : Client W) (sshKeyName workerServerType : String)
    (datacenters : List String) (count : Int) (offset : Int) (p : Provider) (c : Cloud W) :
    Outcome (List Node) × Provider × Cloud W :=
  CreateNodes cl "worker" (workerTemplate sshKeyName workerServerType) datacenters count
    offset p c

/-- The method `Provider.GetMasterNode`, returning the Go pair `(*Node, error)` and the
provider after the call. -/
def GetMasterNode (p : Provider) : (Option Node × Option GoError) × Provider :=
  match p.nodes.find? (fun node => node.IsMaster) with
  | some node => ((some node, none), p)
  | none => ((none, some (GoError.other "no master node found")), p)

/-- The method `Provider.MustWait`. -/
def MustWait (p : Provider) : Bool := p.wait

/-- The constructor `NewHetznerProvider`. -/
def NewHetznerProvider (clusterName token : String) : Provider :=
  { nodes := [], clusterName := clusterName, cloudInitFile := "", wait := false,
    token := token }

/-! ## Specification vocabulary -/

/-- A call that the resolve-or-create step may issue for the request `opts`. -/
def IsResolveCall (opts : ServerCreateOpts) (call : Call) : Prop :=
  call = Call.serverGetByName opts.Name ∨ call = Call.serverCreate opts ∨
    call = Call.serverGet opts.Name ∨ ∃ a, call = Call.awaitAction a

/-- A call that iteration `j` of the loop of `CreateNodes` may issue. -/
def IsIterationCall (optsTemplate : ServerCreateOpts) (clusterName suffix : String)
    (datacenters : List String) (offset : Int) (j : Nat) (call : Call) : Prop :=
  ∃ opts, serverOptsAt optsTemplate clusterName suffix datacenters offset j = Outcome.ok opts ∧
    IsResolveCall opts call

/-- The node that `CreateNodes` records for node number `nodeNumber` when the resolved
machine has the public address `ip`. -/
def expectedNode (clusterName suffix : String) (template : Node) (nodeNumber : Int)
    (ip : String) : Node :=
  { Name := serverName clusterName suffix nodeNumber
    Type_ := template.Type_
    IsMaster := template.IsMaster
    IsEtcd := template.IsEtcd
    IPAddress := ip
    PrivateIPAddress := privateIpAddress template nodeNumber
    SSHKeyName := template.SSHKeyName }

/-- The nodes recorded by consecutive iterations starting at counter `i`, one for each public
address of the list. -/
def expectedNodes (clusterName suffix : String) (template : Node) (offset : Int) :
    Nat → List String → List Node
  | _, [] => []
  | i, ip :: ips =>
    expectedNode clusterName suffix template (wrapInt ((i : Int) + offset)) ip ::
      expectedNodes clusterName suffix template offset (i + 1) ips

/-- A call that `CreateNodes` may issue while resolving node `j` of a batch: a fetch of the
node's name, the await of an action, or a create request carrying the node's name and the
placement zone `datacenters[j % len(datacenters)]`. -/
def IsNodeCall (clusterName suffix : String) (datacenters : List String) (offset : Int)
    (j : Nat) (call : Call) : Prop :=
  call = Call.serverGetByName (serverName clusterName suffix (wrapInt ((j : Int) + offset))) ∨
    call = Call.serverGet (serverName clusterName suffix (wrapInt ((j : Int) + offset))) ∨
    (∃ a, call = Call.awaitAction a) ∨
    ∃ opts, call = Call.serverCreate opts ∧
      opts.Name = serverName clusterName suffix (wrapInt ((j : Int) + offset)) ∧
      datacenters ≠ [] ∧ opts.Datacenter = datacenters[j % datacenters.length]?

/-- The placeholder of the name template, as a character list. -/
def idxPlaceholder : List Char := ['@', 'i', 'd', 'x']

/-- Does the string contain the placeholder `@idx` of the name template? -/
def hasPlaceholder (s : String) : Bool := occursIn idxPlaceholder s.data

/-! ## Sample clients

Concrete provider accounts on which the theorems below are instantiated. -/

/-- The key every sample account resolves a key name to. -/
def sampleKey (name : String) : SSHKey :=
  { ID := 1, Name := name, Fingerprint := "", PublicKey := "" }

/-- An account in which no machine is ever found by name and every create request and its
action succeed. -/
def freshClient : Client Unit :=
  { SSHKeyGet := fun name w => (Except.ok (some (sampleKey name)), w)
    ReadFile := fun _ w => (Except.error (GoError.other "no such file"), w)
    ServerGetByName := fun _ w => (Except.ok none, w)
    ServerCreate := fun opts w =>
      (Except.ok { Action := some { ID := 7 },
                   Server := some { Name := opts.Name, PublicIPv4 := "192.0.2.1" } }, w)
    ServerGet := fun _ w => (Except.ok none, w)
    waitAction := fun _ w => (none, w) }

/-- An account that stores its machines: a machine is found by name once it has been
created, and creating a name twice is rejected as a naming conflict. -/
def storeClient : Client (List Server) :=
  { SSHKeyGet := fun name w => (Except.ok (some (sampleKey name)), w)
    ReadFile := fun _ w => (Except.error (GoError.other "no such file"), w)
    ServerGetByName := fun name w => (Except.ok (w.find? (fun s => s.Name == name)), w)
    ServerCreate := fun opts w =>
      if w.any (fun s => s.Name == opts.Name) then
        (Except.error (GoError.hcloud "uniqueness_error" "server name is already used"), w)
      else
        (Except.ok { Action := some { ID := (w.length : Int) + 1 },
                     Server := some { Name := opts.Name,
                                      PublicIPv4 := "192.0.2." ++ Nat.repr (w.length + 1) } },
          w ++ [{ Name := opts.Name, PublicIPv4 := "192.0.2." ++ Nat.repr (w.length + 1) }])
    ServerGet := fun name w => (Except.ok (w.find? (fun s => s.Name == name)), w)
    waitAction := fun _ w => (none, w) }

/-- An account with a machine quota (the world state): a create request succeeds while quota
is left and is rejected with a structured API error afterwards. -/
def quotaClient : Client Nat :=
  { SSHKeyGet := fun name w => (Except.ok (some (sampleKey name)), w)
    ReadFile := fun _ w => (Except.error (GoError.other "no such file"), w)
    ServerGetByName := fun _ w => (Except.ok none, w)
    ServerCreate := fun opts w =>
      match w with
      | 0 => (Except.error (GoError.hcloud "resource_limit_exceeded" "server limit exceeded"), 0)
      | q + 1 =>
        (Except.ok { Action := some { ID := 7 },
                     Server := some { Name := opts.Name, PublicIPv4 := "192.0.2.1" } }, q)
    ServerGet := fun _ w => (Except.ok none, w)
    waitAction := fun _ w => (none, w) }

/-- An account in which another caller wins every race: the first fetch finds nothing, the
create request is rejected as a naming conflict, and the fallback fetch finds the machine. -/
def racingClient : Client Unit :=
  { SSHKeyGet := fun name w => (Except.ok (some (sampleKey name)), w)
    ReadFile := fun _ w => (Except.error (GoError.other "no such file"), w)
    ServerGetByName := fun _ w => (Except.ok none, w)
    ServerCreate := fun _ w =>
      (Except.error (GoError.hcloud "uniqueness_error" "server name is already used"), w)
    ServerGet := fun name w => (Except.ok (some { Name := name, PublicIPv4 := "192.0.2.1" }), w)
    waitAction := fun _ w => (none, w) }

/-- An account whose create request fails in the transport, with an error that is not of the
type `hcloud.Error`. -/
def brokenTransportClient : Client Unit :=
  { SSHKeyGet := fun name w => (Except.ok (some (sampleKey name)), w)
    ReadFile := fun _ w => (Except.error (GoError.other "no such file"), w)
    ServerGetByName := fun _ w => (Except.ok none, w)
    ServerCreate := fun _ w => (Except.error (GoError.other "connection refused"), w)
    ServerGet := fun _ w => (Except.ok none, w)
    waitAction := fun _ w => (none, w) }

/-- The request of the first worker in cluster `c` used in the examples. -/
def sampleOpts : ServerCreateOpts :=
  { Name := "c-worker-01", ServerType := "cx11", Image := "ubuntu-16.04",
    SSHKeys := [some (sampleKey "key1")], UserData := "", Datacenter := some "fsn1" }

/-- The name and the private address of each node of a batch, in order. -/
def identities (nodes : List Node) : List (String × String) :=
  nodes.map fun n => (n.Name, n.PrivateIPAddress)

/-- The names and private addresses of a batch, computed from the cluster name, the role
suffix, the role flags of the template, the count and the offset alone. -/
def nodeIdentities (clusterName suffix : String) (isMaster isEtcd : Bool)
    (count offset : Int) : List (String × String) :=
  (List.range count.toNat).map fun j =>
    (serverName clusterName suffix (wrapInt (((j + 1 : Nat) : Int) + offset)),
      privateIpAddress { Node.zero with IsMaster := isMaster, IsEtcd := isEtcd }
        (wrapInt (((j + 1 : Nat) : Int) + offset)))

/-- The two workers of cluster `c` as recorded on the storing sample account. -/
def sampleWorkers : List Node :=
  [{ Name := "c-worker-01", Type_ := "cx11", IsMaster := false, IsEtcd := false,
     IPAddress := "192.0.2.1", PrivateIPAddress := "10.0.1.21", SSHKeyName := "key1" },
   { Name := "c-worker-02", Type_ := "cx11", IsMaster := false, IsEtcd := false,
     IPAddress := "192.0.2.2", PrivateIPAddress := "10.0.1.22", SSHKeyName := "key1" }]

/-- The ninth etcd node of cluster `c` on the fresh sample account. -/
def sampleEtcd9 : Node :=
  expectedNode "c" "etcd" (etcdTemplate "key1" "cx11") 9 "192.0.2.1"

/-- The first master of cluster `c` (without the etcd flag) on the fresh sample account. -/
def sampleMaster1 : Node :=
  expectedNode "c" "master" (masterTemplate "key1" "cx11" false) 1 "192.0.2.1"

/-- The first master of cluster `c` with the etcd flag on the fresh sample account. -/
def sampleEtcdMaster1 : Node :=
  expectedNode "c" "master" (masterTemplate "key1" "cx11" true) 1 "192.0.2.1"

/-- The ninth worker of cluster `c`, with key `key2` and machine type `cx31`, on the quota
sample account. -/
def sampleWorker9 : Node :=
  expectedNode "c" "worker" (workerTemplate "key2" "cx31") 9 "192.0.2.1"

/-- The create requests of a call log, in order: the name and the placement zone of each. -/
def createRequests (calls : List Call) : List (String × Option String) :=
  calls.filterMap fun call =>
    match call with
    | Call.serverCreate opts => some (opts.Name, opts.Datacenter)
    | _ => none

/-- Along a run, every resolution of the listed names, in this order, is a clean create:
from the world state `w` the fetch by the first name finds nothing, every create request for
that name then succeeds with a machine, its action is awaited successfully, and the same
holds for the remaining names from the world state reached. -/
def CleanFrom (cl : Client W) : List String → W → Prop
  | [], _ => True
  | name :: rest, w =>
    ∃ w1, cl.ServerGetByName name w = (Except.ok none, w1) ∧
      ∀ opts : ServerCreateOpts, opts.Name = name →
        ∃ a s w2, cl.ServerCreate opts w1 = (Except.ok ⟨a, some s⟩, w2) ∧
          (cl.waitAction a w2).1 = none ∧ CleanFrom cl rest (cl.waitAction a w2).2

/-- The nodes a call appended to the node set: those of the provider `after` the call that
come after the nodes of the provider `before` it. -/
def newNodes (before after : Provider) : List Node :=
  after.nodes.drop before.nodes.length

/-- The node `node` was recorded with node number `n` by some call of `CreateEtcdNodes` (the
node at position `j` of a call has node number `j + 1 + 0`). -/
def EtcdNodeAt (n : Nat) (node : Node) : Prop :=
  ∃ (W : Type) (cl : Client W) (sshKeyName masterServerType : String)
    (datacenters : List String) (count : Int) (p : Provider) (c : Cloud W) (j : Nat),
    (newNodes p (CreateEtcdNodes cl sshKeyName masterServerType datacenters count
      p c).2.1)[j]? = some node ∧
    wrapInt (((j + 1 : Nat) : Int) + 0) = (n : Int)

/-- The node `node` was recorded with node number `n` by some call of `CreateMasterNodes`
with the given `isEtcd` argument. -/
def MasterNodeAt (isEtcd : Bool) (n : Nat) (node : Node) : Prop :=
  ∃ (W : Type) (cl : Client W) (sshKeyName masterServerType : String)
    (datacenters : List String) (count : Int) (p : Provider) (c : Cloud W) (j : Nat),
    (newNodes p (CreateMasterNodes cl sshKeyName masterServerType datacenters count isEtcd
      p c).2.1)[j]? = some node ∧
    wrapInt (((j + 1 : Nat) : Int) + 0) = (n : Int)

/-- The node `node` was recorded with node number `n` by some call of `CreateWorkerNodes`
(the node at position `j` of a call with offset `offset` has node number `j + 1 + offset`). -/
def WorkerNodeAt (n : Nat) (node : Node) : Prop :=
  ∃ (W : Type) (cl : Client W) (sshKeyName workerServerType : String)
    (datacenters : List String) (count offset : Int) (p : Provider) (c : Cloud W) (j : Nat),
    (newNodes p (CreateWorkerNodes cl sshKeyName workerServerType datacenters count offset
      p c).2.1)[j]? = some node ∧
    wrapInt (((j + 1 : Nat) : Int) + offset) = (n : Int)

/-- An account whose transport breaks once its budget of create requests (the world state)
is used up: a create request succeeds while budget is left and afterwards fails with an
error that is not of the type `hcloud.Error`. -/
def flakyTransportClient : Client Nat :=
  { SSHKeyGet := fun name w => (Except.ok (some (sampleKey name)), w)
    ReadFile := fun _ w => (Except.error (GoError.other "no such file"), w)
    ServerGetByName := fun _ w => (Except.ok none, w)
    ServerCreate := fun opts w =>
      match w with
      | 0 => (Except.error (GoError.other "connection reset by peer"), 0)
      | q + 1 =>
        (Except.ok { Action := some { ID := 7 },
                     Server := some { Name := opts.Name, PublicIPv4 := "192.0.2.1" } }, q)
    ServerGet := fun _ w => (Except.ok none, w)
    waitAction := fun _ w => (none, w) }

/-! ## The resolve-or-create step -/

theorem actionProgress_calls (cl : Client W) (a : Option Action) (c : Cloud W) :
    (actionProgress cl a c).2.calls = c.calls ++ [Call.awaitAction a] := rfl

theorem actionProgress_calls_of_eq (cl : Client W) (a : Option Action) (c c3 : Cloud W)
    (e : Option GoError) (h : actionProgress cl a c = (e, c3)) :
    c3.calls = c.calls ++ [Call.awaitAction a] := by
  rw [← actionProgress_calls cl a c, h]

theorem runCreateServer_provider (cl : Client W) (opts : ServerCreateOpts) (p : Provider)
    (c : Cloud W) :
    (runCreateServer cl opts p c).2.1 = p ∨
      (runCreateServer cl opts p c).2.1 = { p with wait := true } := by
  unfold runCreateServer
  repeat (first | split | simp)

theorem runCreateServer_err_provider (cl : Client W) (opts : ServerCreateOpts) (p : Provider)
    (c : Cloud W) (e : GoError) (h : (runCreateServer cl opts p c).1 = Outcome.err e) :
    (runCreateServer cl opts p c).2.1 = p := by
  revert h
  unfold runCreateServer
  repeat (first | split | simp)

theorem runCreateServer_nodes (cl : Client W) (opts : ServerCreateOpts) (p : Provider)
    (c : Cloud W) : (runCreateServer cl opts p c).2.1.nodes = p.nodes := by
  rcases runCreateServer_provider cl opts p c with h | h <;> rw [h]

theorem runCreateServer_calls (cl : Client W) (opts : ServerCreateOpts) (p : Provider)
    (c : Cloud W) :
    ∃ new, (runCreateServer cl opts p c).2.2.calls = c.calls ++ new ∧
      ∀ call ∈ new, IsResolveCall opts call := by
  unfold runCreateServer IsResolveCall
  split
  · exact ⟨_, rfl, by simp⟩
  · exact ⟨_, rfl, by simp⟩
  · split
    · split
      · split
        · exact ⟨_, rfl, by simp⟩
        · exact ⟨_, rfl, by simp⟩
      · exact ⟨_, rfl, by simp⟩
    · exact ⟨_, rfl, by simp⟩
    · split
      · rename_i h3
        have hc := actionProgress_calls_of_eq _ _ _ _ _ h3
        simp only [List.append_assoc, List.cons_append, List.nil_append] at hc
        exact ⟨_, hc, by simp⟩
      · rename_i h3
        have hc := actionProgress_calls_of_eq _ _ _ _ _ h3
        simp only [List.append_assoc, List.cons_append, List.nil_append] at hc
        exact ⟨_, hc, by simp⟩

/-! ## One iteration of the loop -/

theorem serverOptsAt_ok (optsTemplate : ServerCreateOpts) (clusterName suffix : String)
    (datacenters : List String) (offset : Int) (i : Nat) (opts : ServerCreateOpts)
    (h : serverOptsAt optsTemplate clusterName suffix datacenters offset i = Outcome.ok opts) :
    opts.Name = serverName clusterName suffix (wrapInt ((i : Int) + offset)) ∧
      opts.ServerType = optsTemplate.ServerType ∧
      datacenters ≠ [] ∧
      opts.Datacenter = datacenters[i % datacenters.length]? := by
  unfold serverOptsAt datacenterAt at h
  split at h
  · rename_i d hd
    split at hd
    · simp at hd
    · rename_i hlen
      split at hd
      · rename_i d2 hd2
        simp only [Outcome.ok.injEq] at hd h
        subst hd
        subst h
        refine ⟨rfl, rfl, ?_, hd2.symm⟩
        intro hnil
        exact hlen (by simp [hnil])
      · simp at hd
  · simp at h
  · simp at h

theorem createNodeAt_nodes (cl : Client W) (optsTemplate : ServerCreateOpts)
    (clusterName suffix : String) (template : Node) (datacenters : List String)
    (offset : Int) (i : Nat) (p : Provider) (c : Cloud W) :
    (createNodeAt cl optsTemplate clusterName suffix template datacenters offset i p c).2.1.nodes
      = p.nodes := by
  unfold createNodeAt
  split
  · rfl
  · rfl
  · rename_i serverOpts _
    have hn := runCreateServer_nodes cl serverOpts p c
    split
    · rename_i h; rw [h] at hn; exact hn
    · rename_i h; rw [h] at hn; exact hn
    · rename_i h; rw [h] at hn
      split
      · exact hn
      · exact hn

theorem createNodeAt_ok (cl : Client W) (optsTemplate : ServerCreateOpts)
    (clusterName suffix : String) (template : Node) (datacenters : List String)
    (offset : Int) (i : Nat) (p p1 : Provider) (c c1 : Cloud W) (node : Node)
    (hT : optsTemplate.ServerType = template.Type_)
    (h : createNodeAt cl optsTemplate clusterName suffix template datacenters offset i p c
      = (Outcome.ok node, p1, c1)) :
    ∃ ip, node = expectedNode clusterName suffix template (wrapInt ((i : Int) + offset)) ip := by
  unfold createNodeAt at h
  split at h
  · simp at h
  · simp at h
  · rename_i serverOpts hopts
    obtain ⟨hname, htype, -, -⟩ := serverOptsAt_ok _ _ _ _ _ _ _ hopts
    split at h
    · simp at h
    · simp at h
    · split at h
      · simp at h
      · rename_i server _
        simp only [Prod.mk.injEq, Outcome.ok.injEq] at h
        refine ⟨server.PublicIPv4, ?_⟩
        rw [← h.1]
        simp [nodeRecord, expectedNode, hname, htype, hT]

theorem createNodeAt_err_provider (cl : Client W) (optsTemplate : ServerCreateOpts)
    (clusterName suffix : String) (template : Node) (datacenters : List String)
    (offset : Int) (i : Nat) (p : Provider) (c : Cloud W) (e : GoError)
    (h : (createNodeAt cl optsTemplate clusterName suffix template datacenters offset i p c).1
      = Outcome.err e) :
    (createNodeAt cl optsTemplate clusterName suffix template datacenters offset i p c).2.1
      = p := by
  revert h
  unfold createNodeAt
  split
  · simp
  · simp
  · rename_i serverOpts _
    have hp := runCreateServer_err_provider cl serverOpts p c
    split
    · simp
    · rename_i e1 p1 c1 h
      intro he
      simp only [Outcome.err.injEq] at he
      have := hp e1 (by rw [h])
      rw [h] at this
      exact this
    · split <;> simp

theorem createNodeAt_calls (cl : Client W) (optsTemplate : ServerCreateOpts)
    (clusterName suffix : String) (template : Node) (datacenters : List String)
    (offset : Int) (i : Nat) (p : Provider) (c : Cloud W) :
    ∃ new,
      (createNodeAt cl optsTemplate clusterName suffix template datacenters offset i p c).2.2.calls
        = c.calls ++ new ∧
      ∀ call ∈ new, IsIterationCall optsTemplate clusterName suffix datacenters offset i call := by
  unfold createNodeAt
  split
  · exact ⟨[], by simp, by simp⟩
  · exact ⟨[], by simp, by simp⟩
  · rename_i serverOpts hopts
    obtain ⟨new, hnew, hall⟩ := runCreateServer_calls cl serverOpts p c
    refine ⟨new, ?_, fun call hc => ⟨serverOpts, hopts, hall call hc⟩⟩
    split
    · rename_i h; rw [h] at hnew; exact hnew
    · rename_i h; rw [h] at hnew; exact hnew
    · rename_i h; rw [h] at hnew
      split
      · exact hnew
      · exact hnew

/-! ## The loop -/

theorem expectedNodes_length (clusterName suffix : String) (template : Node) (offset : Int)
    (ips : List String) :
    ∀ i, (expectedNodes clusterName suffix template offset i ips).length = ips.length := by
  induction ips with
  | nil => intro i; rfl
  | cons ip ips ih => intro i; simp [expectedNodes, ih]

theorem expectedNodes_getElem? (clusterName suffix : String) (template : Node) (offset : Int)
    (ips : List String) :
    ∀ i j, (expectedNodes clusterName suffix template offset i ips)[j]?
      = ips[j]?.map (expectedNode clusterName suffix template
          (wrapInt (((i + j : Nat) : Int) + offset))) := by
  induction ips with
  | nil => intro i j; simp [expectedNodes]
  | cons ip ips ih =>
    intro i j
    cases j with
    | zero => simp [expectedNodes]
    | succ j =>
      simp only [expectedNodes, List.getElem?_cons_succ, ih]
      have : i + 1 + j = i + (j + 1) := by omega
      rw [this]

theorem createNodesLoop_nodes (cl : Client W) (optsTemplate : ServerCreateOpts)
    (clusterName suffix : String) (template : Node) (datacenters : List String)
    (offset : Int) (hT : optsTemplate.ServerType = template.Type_) :
    ∀ (remaining i : Nat) (nodes : List Node) (p : Provider) (c : Cloud W),
      ∃ ips : List String,
        (createNodesLoop cl optsTemplate clusterName suffix template datacenters offset
          remaining i nodes p c).2.1.nodes
          = p.nodes ++ expectedNodes clusterName suffix template offset i ips ∧
        ips.length ≤ remaining ∧
        ∀ ns, (createNodesLoop cl optsTemplate clusterName suffix template datacenters offset
            remaining i nodes p c).1 = Outcome.ok ns →
          ns = nodes ++ expectedNodes clusterName suffix template offset i ips ∧
            ips.length = remaining := by
  intro remaining
  induction remaining with
  | zero =>
    intro i nodes p c
    refine ⟨[], by simp [createNodesLoop, expectedNodes], by simp, ?_⟩
    intro ns h
    simp only [createNodesLoop, Outcome.ok.injEq] at h
    simp [expectedNodes, h]
  | succ remaining ih =>
    intro i nodes p c
    have hn := createNodeAt_nodes cl optsTemplate clusterName suffix template datacenters
      offset i p c
    rcases h : createNodeAt cl optsTemplate clusterName suffix template datacenters offset
      i p c with ⟨o, p1, c1⟩
    rw [h] at hn
    simp only at hn
    cases o with
    | panic k =>
      refine ⟨[], by simp [createNodesLoop, h, expectedNodes, hn], by simp, ?_⟩
      intro ns hns
      simp [createNodesLoop, h] at hns
    | err e =>
      refine ⟨[], by simp [createNodesLoop, h, expectedNodes, hn], by simp, ?_⟩
      intro ns hns
      simp [createNodesLoop, h] at hns
    | ok node =>
      obtain ⟨ip, hip⟩ := createNodeAt_ok _ _ _ _ _ _ _ _ _ _ _ _ _ hT h
      obtain ⟨ips, h1, h2, h3⟩ := ih (i + 1) (nodes ++ [node])
        { p1 with nodes := p1.nodes ++ [node] } c1
      refine ⟨ip :: ips, ?_, by simpa using h2, ?_⟩
      · simp only [createNodesLoop, h]
        rw [h1]
        simp [expectedNodes, hn, hip]
      · intro ns hns
        simp only [createNodesLoop, h] at hns
        obtain ⟨h4, h5⟩ := h3 ns hns
        refine ⟨?_, by simp [h5]⟩
        rw [h4]
        simp [expectedNodes, hip]

theorem createNodesLoop_add (cl : Client W) (optsTemplate : ServerCreateOpts)
    (clusterName suffix : String) (template : Node) (datacenters : List String)
    (offset : Int) :
    ∀ (a b i : Nat) (nodes : List Node) (p : Provider) (c : Cloud W),
      createNodesLoop cl optsTemplate clusterName suffix template datacenters offset
          (a + b) i nodes p c
        = match createNodesLoop cl optsTemplate clusterName suffix template datacenters offset
            a i nodes p c with
          | (Outcome.ok ns, p1, c1) =>
            createNodesLoop cl optsTemplate clusterName suffix template datacenters offset
              b (i + a) ns p1 c1
          | (Outcome.err e, p1, c1) => (Outcome.err e, p1, c1)
          | (Outcome.panic k, p1, c1) => (Outcome.panic k, p1, c1) := by
  intro a
  induction a with
  | zero => intro b i nodes p c; simp [createNodesLoop]
  | succ a ih =>
    intro b i nodes p c
    rw [Nat.succ_add]
    rcases h : createNodeAt cl optsTemplate clusterName suffix template datacenters offset
      i p c with ⟨o, p1, c1⟩
    cases o with
    | panic k => simp [createNodesLoop, h]
    | err e => simp [createNodesLoop, h]
    | ok node =>
      simp only [createNodesLoop, h]
      rw [ih]
      have : i + 1 + a = i + (a + 1) := by omega
      rw [this]

theorem createNodesLoop_calls (cl : Client W) (optsTemplate : ServerCreateOpts)
    (clusterName suffix : String) (template : Node) (datacenters : List String)
    (offset : Int) :
    ∀ (remaining i : Nat) (nodes : List Node) (p : Provider) (c : Cloud W),
      ∃ new,
        (createNodesLoop cl optsTemplate clusterName suffix template datacenters offset
          remaining i nodes p c).2.2.calls = c.calls ++ new ∧
        ∀ call ∈ new, ∃ j, i ≤ j ∧ j < i + remaining ∧
          IsIterationCall optsTemplate clusterName suffix datacenters offset j call := by
  intro remaining
  induction remaining with
  | zero => intro i nodes p c; exact ⟨[], by simp [createNodesLoop], by simp⟩
  | succ remaining ih =>
    intro i nodes p c
    obtain ⟨new1, hc1, hall1⟩ := createNodeAt_calls cl optsTemplate clusterName suffix
      template datacenters offset i p c
    rcases h : createNodeAt cl optsTemplate clusterName suffix template datacenters offset
      i p c with ⟨o, p1, c1⟩
    rw [h] at hc1
    simp only at hc1
    have hfirst : ∀ call ∈ new1, ∃ j, i ≤ j ∧ j < i + (remaining + 1) ∧
        IsIterationCall optsTemplate clusterName suffix datacenters offset j call :=
      fun call hc => ⟨i, le_refl i, by omega, hall1 call hc⟩
    cases o with
    | panic k => exact ⟨new1, by simp [createNodesLoop, h, hc1], hfirst⟩
    | err e => exact ⟨new1, by simp [createNodesLoop, h, hc1], hfirst⟩
    | ok node =>
      obtain ⟨new2, hc2, hall2⟩ := ih (i + 1) (nodes ++ [node])
        { p1 with nodes := p1.nodes ++ [node] } c1
      refine ⟨new1 ++ new2, ?_, ?_⟩
      · simp only [createNodesLoop, h]
        rw [hc2, hc1, List.append_assoc]
      · intro call hc
        rcases List.mem_append.mp hc with hc | hc
        · exact hfirst call hc
        · obtain ⟨j, hj1, hj2, hj3⟩ := hall2 call hc
          exact ⟨j, by omega, by omega, hj3⟩

theorem createNodesLoop_err_extend (cl : Client W) (optsTemplate : ServerCreateOpts)
    (clusterName suffix : String) (template : Node) (datacenters : List String)
    (offset : Int) (a b i : Nat) (nodes : List Node) (p p1 : Provider) (c c1 : Cloud W)
    (e : GoError)
    (h : createNodesLoop cl optsTemplate clusterName suffix template datacenters offset
      a i nodes p c = (Outcome.err e, p1, c1)) :
    createNodesLoop cl optsTemplate clusterName suffix template datacenters offset
      (a + b) i nodes p c = (Outcome.err e, p1, c1) := by
  rw [createNodesLoop_add, h]

/-! ## `CreateNodes` -/

theorem IsIterationCall.isNodeCall {optsTemplate : ServerCreateOpts}
    {clusterName suffix : String} {datacenters : List String} {offset : Int} {j : Nat}
    {call : Call}
    (h : IsIterationCall optsTemplate clusterName suffix datacenters offset j call) :
    IsNodeCall clusterName suffix datacenters offset j call := by
  obtain ⟨opts, hopts, hcall⟩ := h
  obtain ⟨hname, -, hne, hdc⟩ := serverOptsAt_ok _ _ _ _ _ _ _ hopts
  unfold IsNodeCall
  rcases hcall with h | h | h | h
  · left; rw [h, hname]
  · right; right; right; exact ⟨opts, h, hname, hne, hdc⟩
  · right; left; rw [h, hname]
  · right; right; left; exact h

theorem readUserData_calls (cl : Client W) (p : Provider) (c : Cloud W) :
    (readUserData cl p c).2.calls = c.calls ∨
      (readUserData cl p c).2.calls = c.calls ++ [Call.readFile p.cloudInitFile] := by
  unfold readUserData
  split
  · split <;> simp
  · simp

theorem CreateNodes_of_key_error (cl : Client W) (suffix : String) (template : Node)
    (datacenters : List String) (count offset : Int) (p : Provider) (c : Cloud W)
    (err : GoError) (w : W)
    (hk : cl.SSHKeyGet template.SSHKeyName c.state = (Except.error err, w)) :
    CreateNodes cl suffix template datacenters count offset p c
      = (Outcome.err err, p, ⟨w, c.calls ++ [Call.sshKeyGet template.SSHKeyName]⟩) := by
  simp only [CreateNodes, hk]

theorem CreateNodes_of_key_ok (cl : Client W) (suffix : String) (template : Node)
    (datacenters : List String) (count offset : Int) (p : Provider) (c : Cloud W)
    (sshKey : Option SSHKey) (w : W)
    (hk : cl.SSHKeyGet template.SSHKeyName c.state = (Except.ok sshKey, w)) :
    CreateNodes cl suffix template datacenters count offset p c
      = createNodesLoop cl
          (serverOptsTemplate p.clusterName suffix template sshKey
            (readUserData cl p ⟨w, c.calls ++ [Call.sshKeyGet template.SSHKeyName]⟩).1)
          p.clusterName suffix template datacenters offset count.toNat 1 [] p
          (readUserData cl p ⟨w, c.calls ++ [Call.sshKeyGet template.SSHKeyName]⟩).2 := by
  simp only [CreateNodes, hk]

theorem CreateNodes_nodes (cl : Client W) (suffix : String) (template : Node)
    (datacenters : List String) (count offset : Int) (p : Provider) (c : Cloud W) :
    ∃ ips : List String,
      (CreateNodes cl suffix template datacenters count offset p c).2.1.nodes
        = p.nodes ++ expectedNodes p.clusterName suffix template offset 1 ips ∧
      ips.length ≤ count.toNat ∧
      ∀ ns, (CreateNodes cl suffix template datacenters count offset p c).1 = Outcome.ok ns →
        ns = expectedNodes p.clusterName suffix template offset 1 ips ∧
          ips.length = count.toNat := by
  rcases hk : cl.SSHKeyGet template.SSHKeyName c.state with ⟨r, w⟩
  cases r with
  | error err =>
    rw [CreateNodes_of_key_error _ _ _ _ _ _ _ _ _ _ hk]
    exact ⟨[], by simp [expectedNodes], by simp, by simp⟩
  | ok sshKey =>
    rw [CreateNodes_of_key_ok _ _ _ _ _ _ _ _ _ _ hk]
    obtain ⟨ips, h1, h2, h3⟩ := createNodesLoop_nodes cl
      (serverOptsTemplate p.clusterName suffix template sshKey
        (readUserData cl p ⟨w, c.calls ++ [Call.sshKeyGet template.SSHKeyName]⟩).1)
      p.clusterName suffix template datacenters offset rfl count.toNat 1 [] p
      (readUserData cl p ⟨w, c.calls ++ [Call.sshKeyGet template.SSHKeyName]⟩).2
    refine ⟨ips, h1, h2, ?_⟩
    intro ns hns
    simpa using h3 ns hns

theorem CreateNodes_calls (cl : Client W) (suffix : String) (template : Node)
    (datacenters : List String) (count offset : Int) (p : Provider) (c : Cloud W) :
    ∃ new,
      (CreateNodes cl suffix template datacenters count offset p c).2.2.calls
        = c.calls ++ new ∧
      ∀ call ∈ new, call = Call.sshKeyGet template.SSHKeyName ∨
        call = Call.readFile p.cloudInitFile ∨
        ∃ j, 1 ≤ j ∧ j ≤ count.toNat ∧
          IsNodeCall p.clusterName suffix datacenters offset j call := by
  rcases hk : cl.SSHKeyGet template.SSHKeyName c.state with ⟨r, w⟩
  cases r with
  | error err =>
    rw [CreateNodes_of_key_error _ _ _ _ _ _ _ _ _ _ hk]
    exact ⟨[Call.sshKeyGet template.SSHKeyName], rfl, by simp⟩
  | ok sshKey =>
    rw [CreateNodes_of_key_ok _ _ _ _ _ _ _ _ _ _ hk]
    obtain ⟨new, h1, h2⟩ := createNodesLoop_calls cl
      (serverOptsTemplate p.clusterName suffix template sshKey
        (readUserData cl p ⟨w, c.calls ++ [Call.sshKeyGet template.SSHKeyName]⟩).1)
      p.clusterName suffix template datacenters offset count.toNat 1 [] p
      (readUserData cl p ⟨w, c.calls ++ [Call.sshKeyGet template.SSHKeyName]⟩).2
    have hloop : ∀ call ∈ new, call = Call.sshKeyGet template.SSHKeyName ∨
        call = Call.readFile p.cloudInitFile ∨
        ∃ j, 1 ≤ j ∧ j ≤ count.toNat ∧
          IsNodeCall p.clusterName suffix datacenters offset j call := by
      intro call hc
      obtain ⟨j, hj1, hj2, hj3⟩ := h2 call hc
      exact Or.inr (Or.inr ⟨j, hj1, by omega, hj3.isNodeCall⟩)
    rcases readUserData_calls cl p ⟨w, c.calls ++ [Call.sshKeyGet template.SSHKeyName]⟩
      with hr | hr
    · refine ⟨Call.sshKeyGet template.SSHKeyName :: new, ?_, ?_⟩
      · rw [h1, hr]; simp
      · intro call hc
        rcases List.mem_cons.mp hc with hc | hc
        · exact Or.inl hc
        · exact hloop call hc
    · refine ⟨Call.sshKeyGet template.SSHKeyName :: Call.readFile p.cloudInitFile :: new,
        ?_, ?_⟩
      · rw [h1, hr]; simp
      · intro call hc
        rcases List.mem_cons.mp hc with hc | hc
        · exact Or.inl hc
        · rcases List.mem_cons.mp hc with hc | hc
          · exact Or.inr (Or.inl hc)
          · exact hloop call hc

theorem CreateNodes_err_mono (cl : Client W) (suffix : String) (template : Node)
    (datacenters : List String) (k count offset : Int) (hk : k ≤ count)
    (p p1 : Provider) (c c1 : Cloud W) (e : GoError)
    (h : CreateNodes cl suffix template datacenters k offset p c = (Outcome.err e, p1, c1)) :
    CreateNodes cl suffix template datacenters count offset p c = (Outcome.err e, p1, c1) := by
  rcases hkey : cl.SSHKeyGet template.SSHKeyName c.state with ⟨r, w⟩
  cases r with
  | error err =>
    rw [CreateNodes_of_key_error _ _ _ _ _ _ _ _ _ _ hkey] at h ⊢
    exact h
  | ok sshKey =>
    rw [CreateNodes_of_key_ok _ _ _ _ _ _ _ _ _ _ hkey] at h ⊢
    have hsplit : count.toNat = k.toNat + (count.toNat - k.toNat) := by
      have : k.toNat ≤ count.toNat := Int.toNat_le_toNat hk
      omega
    rw [hsplit]
    exact createNodesLoop_err_extend _ _ _ _ _ _ _ _ _ _ _ _ _ _ _ _ h

/-! ## Name substitution -/

theorem isPrefixOf_idx_cons_of_ne (c : Char) (cs : List Char) (h : c ≠ '@') :
    idxPlaceholder.isPrefixOf (c :: cs) = false := by
  simp [idxPlaceholder, List.isPrefixOf]
  intro h1
  exact absurd h1.symm h

theorem occursIn_idx_of_no_at (t : List Char) (h : ∀ ch ∈ t, ch ≠ '@') :
    occursIn idxPlaceholder t = false := by
  induction t with
  | nil => rfl
  | cons c cs ih =>
    simp only [occursIn, Bool.or_eq_false_iff]
    exact ⟨isPrefixOf_idx_cons_of_ne c cs (h c (by simp)),
      ih (fun ch hch => h ch (by simp [hch]))⟩

theorem isPrefixOf_idx_append_idx (s : List Char)
    (h : idxPlaceholder.isPrefixOf s = false) (hs : s ≠ []) :
    idxPlaceholder.isPrefixOf (s ++ idxPlaceholder) = false := by
  match s, hs with
  | [a], _ =>
    simp [idxPlaceholder, List.isPrefixOf]
  | [a, b], _ =>
    simp [idxPlaceholder, List.isPrefixOf]
  | [a, b, c], _ =>
    simp [idxPlaceholder, List.isPrefixOf]
  | a :: b :: c :: d :: rest, _ =>
    simpa [idxPlaceholder, List.isPrefixOf] using h

theorem replaceFirst_idx_append (new : List Char) :
    ∀ pre : List Char, occursIn idxPlaceholder pre = false →
      replaceFirst idxPlaceholder new (pre ++ idxPlaceholder) = pre ++ new := by
  intro pre
  induction pre with
  | nil =>
    intro _
    simp [idxPlaceholder, replaceFirst, List.isPrefixOf]
  | cons c cs ih =>
    intro h
    simp only [occursIn, Bool.or_eq_false_iff] at h
    have hp := isPrefixOf_idx_append_idx (c :: cs) h.1 (by simp)
    rw [List.cons_append] at hp ⊢
    simp only [replaceFirst, hp, Bool.false_eq_true, if_false]
    rw [ih h.2]
    rfl

theorem occursIn_idx_append (t : List Char) (hat : ∀ ch ∈ t, ch ≠ '@')
    (hhead : ∀ ch, t.head? = some ch → ch ≠ 'i' ∧ ch ≠ 'd' ∧ ch ≠ 'x') :
    ∀ pre : List Char, occursIn idxPlaceholder pre = false →
      occursIn idxPlaceholder (pre ++ t) = false := by
  intro pre
  induction pre with
  | nil => intro _; simpa using occursIn_idx_of_no_at t hat
  | cons c cs ih =>
    intro h
    simp only [occursIn, Bool.or_eq_false_iff] at h
    rw [List.cons_append]
    simp only [occursIn, Bool.or_eq_false_iff]
    refine ⟨?_, ih h.2⟩
    have h1 := h.1
    cases t with
    | nil => simpa using h1
    | cons t0 ts =>
      have ht0 := hhead t0 rfl
      match cs, h1 with
      | [], _ =>
        simp [idxPlaceholder, List.isPrefixOf]
        intro _ hi
        exact absurd hi.symm ht0.1
      | [a], _ =>
        simp [idxPlaceholder, List.isPrefixOf]
        intro _ _ hd
        exact absurd hd.symm ht0.2.1
      | [a, b], _ =>
        simp [idxPlaceholder, List.isPrefixOf]
        intro _ _ _ hx
        exact absurd hx.symm ht0.2.2
      | a :: b :: d :: rest, h1 =>
        simpa [idxPlaceholder, List.isPrefixOf] using h1

theorem serverName_of_no_placeholder (clusterName suffix : String) (nodeNumber : Int)
    (h : hasPlaceholder (clusterName ++ "-" ++ suffix ++ "-") = false) :
    serverName clusterName suffix nodeNumber
      = clusterName ++ "-" ++ suffix ++ "-" ++ sprintfD02 nodeNumber := by
  unfold hasPlaceholder at h
  unfold serverName stringsReplace1 serverNameTemplate
  have hd : (clusterName ++ "-" ++ suffix ++ "-@idx").data
      = (clusterName ++ "-" ++ suffix ++ "-").data ++ idxPlaceholder := by
    simp [String.data_append, idxPlaceholder]
  have hi : "@idx".data = idxPlaceholder := rfl
  rw [hd, hi, replaceFirst_idx_append _ _ h]
  apply String.ext
  simp [String.data_append]

theorem hasPlaceholder_template (clusterName suffix : String)
    (hc : hasPlaceholder clusterName = false) (hs : ∀ ch ∈ suffix.data, ch ≠ '@') :
    hasPlaceholder (clusterName ++ "-" ++ suffix ++ "-") = false := by
  unfold hasPlaceholder at hc ⊢
  have hd : (clusterName ++ "-" ++ suffix ++ "-").data
      = clusterName.data ++ ('-' :: (suffix.data ++ ['-'])) := by
    simp [String.data_append]
  rw [hd]
  apply occursIn_idx_append _ _ _ _ hc
  · intro ch hch
    simp only [List.mem_cons, List.mem_append, List.mem_singleton, List.not_mem_nil,
      or_false] at hch
    rcases hch with h | h | h
    · rw [h]; decide
    · exact hs ch h
    · rw [h]; decide
  · intro ch hch
    simp only [List.head?_cons, Option.some.injEq] at hch
    subst hch
    decide

theorem datacenterAt_ok (datacenters : List String) (i : Nat) (hne : datacenters ≠ []) :
    ∃ d, datacenters[i % datacenters.length]? = some d ∧
      datacenterAt datacenters i = Outcome.ok d := by
  have hpos : 0 < datacenters.length := List.length_pos.mpr hne
  have hlt : i % datacenters.length < datacenters.length := Nat.mod_lt i hpos
  refine ⟨datacenters[i % datacenters.length], List.getElem?_eq_getElem hlt, ?_⟩
  unfold datacenterAt
  rw [if_neg (by omega), List.getElem?_eq_getElem hlt]

theorem runCreateServer_panic (cl : Client W) (opts : ServerCreateOpts) (p : Provider)
    (c : Cloud W) (k : PanicKind)
    (h : (runCreateServer cl opts p c).1 = Outcome.panic k) :
    k = PanicKind.interfaceConversion := by
  revert h
  unfold runCreateServer
  split
  · simp
  · simp
  · split
    · split
      · split <;> simp
      · simp
    · intro h
      simp only [Outcome.panic.injEq] at h
      exact h.symm
    · split <;> simp

theorem createNodeAt_panic (cl : Client W) (optsTemplate : ServerCreateOpts)
    (clusterName suffix : String) (template : Node) (datacenters : List String)
    (offset : Int) (i : Nat) (p : Provider) (c : Cloud W) (k : PanicKind)
    (hne : datacenters ≠ [])
    (h : (createNodeAt cl optsTemplate clusterName suffix template datacenters offset i p c).1
      = Outcome.panic k) :
    k = PanicKind.interfaceConversion ∨ k = PanicKind.nilDereference := by
  obtain ⟨d, -, hd⟩ := datacenterAt_ok datacenters i hne
  revert h
  unfold createNodeAt serverOptsAt
  rw [hd]
  simp only
  split
  · rename_i k1 p1 c1 hr
    intro hk
    simp only [Outcome.panic.injEq] at hk
    subst hk
    exact Or.inl (runCreateServer_panic cl _ p c k1 (by rw [hr]))
  · simp
  · split
    · intro hk
      simp only [Outcome.panic.injEq] at hk
      exact Or.inr hk.symm
    · simp

theorem createNodesLoop_panic (cl : Client W) (optsTemplate : ServerCreateOpts)
    (clusterName suffix : String) (template : Node) (datacenters : List String)
    (offset : Int) (hne : datacenters ≠ []) (k : PanicKind) :
    ∀ (remaining i : Nat) (nodes : List Node) (p : Provider) (c : Cloud W),
      (createNodesLoop cl optsTemplate clusterName suffix template datacenters offset
        remaining i nodes p c).1 = Outcome.panic k →
      k = PanicKind.interfaceConversion ∨ k = PanicKind.nilDereference := by
  intro remaining
  induction remaining with
  | zero => intro i nodes p c h; simp [createNodesLoop] at h
  | succ remaining ih =>
    intro i nodes p c h
    have hp := createNodeAt_panic cl optsTemplate clusterName suffix template datacenters
      offset i p c
    rcases hc : createNodeAt cl optsTemplate clusterName suffix template datacenters offset
      i p c with ⟨o, p1, c1⟩
    rw [hc] at hp
    cases o with
    | panic k1 =>
      simp only [createNodesLoop, hc, Outcome.panic.injEq] at h
      subst h
      exact hp k1 hne rfl
    | err e => simp [createNodesLoop, hc] at h
    | ok node =>
      simp only [createNodesLoop, hc] at h
      exact ih _ _ _ _ h

theorem CreateNodes_panic (cl : Client W) (suffix : String) (template : Node)
    (datacenters : List String) (count offset : Int) (p : Provider) (c : Cloud W)
    (hne : datacenters ≠ []) (k : PanicKind)
    (h : (CreateNodes cl suffix template datacenters count offset p c).1 = Outcome.panic k) :
    k = PanicKind.interfaceConversion ∨ k = PanicKind.nilDereference := by
  rcases hk : cl.SSHKeyGet template.SSHKeyName c.state with ⟨r, w⟩
  cases r with
  | error err =>
    rw [CreateNodes_of_key_error _ _ _ _ _ _ _ _ _ _ hk] at h
    simp at h
  | ok sshKey =>
    rw [CreateNodes_of_key_ok _ _ _ _ _ _ _ _ _ _ hk] at h
    exact createNodesLoop_panic _ _ _ _ _ _ _ hne k _ _ _ _ _ h

theorem CreateNodes_zero_count (cl : Client W) (suffix : String) (template : Node)
    (datacenters : List String) (offset : Int) (p : Provider) (c : Cloud W) :
    CreateNodes cl suffix template datacenters 0 offset p c
      = CreateNodes cl suffix template [] 0 offset p c ∧
    (∀ k, (CreateNodes cl suffix template datacenters 0 offset p c).1 ≠ Outcome.panic k) ∧
    (CreateNodes cl suffix template datacenters 0 offset p c).2.1 = p := by
  rcases hk : cl.SSHKeyGet template.SSHKeyName c.state with ⟨r, w⟩
  cases r with
  | error err =>
    rw [CreateNodes_of_key_error _ _ _ _ _ _ _ _ _ _ hk,
      CreateNodes_of_key_error _ _ _ _ _ _ _ _ _ _ hk]
    simp
  | ok sshKey =>
    rw [CreateNodes_of_key_ok _ _ _ _ _ _ _ _ _ _ hk,
      CreateNodes_of_key_ok _ _ _ _ _ _ _ _ _ _ hk]
    simp [createNodesLoop]

/-! ## Claims -/

/-- C7: `GetMasterNode` returns success with the first master-flagged node in insertion order
when the node set has one; it returns the error "no master node found" and no node when the
node set has none (in particular for the empty set); it never returns success without a node;
and it leaves the provider, hence the node set, unchanged. -/
theorem GetMasterNode_first_master_or_error (p : Provider) :
    ((∃ n ∈ p.nodes, n.IsMaster = true) →
      ∃ pre m post, p.nodes = pre ++ m :: post ∧ (∀ x ∈ pre, x.IsMaster = false) ∧
        m.IsMaster = true ∧ (GetMasterNode p).1 = (some m, none)) ∧
    ((∀ n ∈ p.nodes, n.IsMaster = false) →
      (GetMasterNode p).1 = (none, some (GoError.other "no master node found"))) ∧
    (p.nodes = [] →
      (GetMasterNode p).1 = (none, some (GoError.other "no master node found"))) ∧
    ((GetMasterNode p).1.2 = none → ∃ m, (GetMasterNode p).1.1 = some m) ∧
    (GetMasterNode p).2 = p ∧ (GetMasterNode p).2.nodes = p.nodes := by
  have hnone : (∀ n ∈ p.nodes, n.IsMaster = false) →
      (GetMasterNode p).1 = (none, some (GoError.other "no master node found")) := by
    intro h
    have hf : p.nodes.find? (fun node => node.IsMaster) = none := by
      rw [List.find?_eq_none]
      intro x hx
      simp [h x hx]
    simp [GetMasterNode, hf]
  have hunch : (GetMasterNode p).2 = p := by
    unfold GetMasterNode
    split <;> rfl
  refine ⟨?_, hnone, ?_, ?_, hunch, by rw [hunch]⟩
  · rintro ⟨n, hn, hm⟩
    have hsome : (p.nodes.find? (fun node => node.IsMaster)).isSome := by
      rw [List.find?_isSome]
      exact ⟨n, hn, hm⟩
    obtain ⟨m, hfind⟩ := Option.isSome_iff_exists.mp hsome
    obtain ⟨hmm, pre, post, hsplit, hpre⟩ := List.find?_eq_some.mp hfind
    refine ⟨pre, m, post, hsplit, ?_, hmm, by simp [GetMasterNode, hfind]⟩
    intro x hx
    simpa using hpre x hx
  · intro hnil
    exact hnone (by simp [hnil])
  · unfold GetMasterNode
    split
    · intro _; exact ⟨_, rfl⟩
    · intro h; simp at h

/-- Witness for C7 on a node set whose second node is the first master, and on the empty
node set. -/
theorem GetMasterNode_first_master_or_error_witness :
    (∃ pre m post,
      [workerTemplate "k" "cx11", masterTemplate "k" "cx21" false,
        masterTemplate "k" "cx31" true] = pre ++ m :: post ∧
      (∀ x ∈ pre, x.IsMaster = false) ∧ m.IsMaster = true ∧
      (GetMasterNode { NewHetznerProvider "c" "t" with nodes :=
        [workerTemplate "k" "cx11", masterTemplate "k" "cx21" false,
          masterTemplate "k" "cx31" true] }).1 = (some m, none)) ∧
    (GetMasterNode (NewHetznerProvider "c" "t")).1
      = (none, some (GoError.other "no master node found")) :=
  ⟨(GetMasterNode_first_master_or_error { NewHetznerProvider "c" "t" with nodes :=
        [workerTemplate "k" "cx11", masterTemplate "k" "cx21" false,
          masterTemplate "k" "cx31" true] }).1
      ⟨masterTemplate "k" "cx21" false, by decide, rfl⟩,
    (GetMasterNode_first_master_or_error (NewHetznerProvider "c" "t")).2.2.1 rfl⟩

/-- C5: when the first fetch by name finds nothing, the create request is rejected as a naming
conflict and the fallback fetch returns machine `m`, the resolve-or-create step succeeds with
`m`, issues exactly the three requests fetch, create, fetch (no action is awaited), leaves the
provider and so the `MustWait` flag unchanged, and the node the loop of `CreateNodes` records
is the same node that it records after a clean create that produced the same machine `m`. -/
theorem runCreateServer_conflict_same_node (cl cl' : Client W)
    (optsTemplate : ServerCreateOpts) (clusterName suffix : String) (template : Node)
    (datacenters : List String) (offset : Int) (i : Nat) (opts : ServerCreateOpts)
    (p p' : Provider) (c c' : Cloud W) (nodes nodes' : List Node)
    (w1 w2 w3 w1' w2' : W) (msg : String) (m : Server) (a : Option Action)
    (hopts : serverOptsAt optsTemplate clusterName suffix datacenters offset i
      = Outcome.ok opts)
    (hget : cl.ServerGetByName opts.Name c.state = (Except.ok none, w1))
    (hconflict : cl.ServerCreate opts w1
      = (Except.error (GoError.hcloud "uniqueness_error" msg), w2))
    (hfallback : cl.ServerGet opts.Name w2 = (Except.ok (some m), w3))
    (hget' : cl'.ServerGetByName opts.Name c'.state = (Except.ok none, w1'))
    (hcreate' : cl'.ServerCreate opts w1' = (Except.ok ⟨a, some m⟩, w2'))
    (hwait' : (cl'.waitAction a w2').1 = none) :
    runCreateServer cl opts p c
      = (Outcome.ok ⟨none, some m⟩, p,
          ⟨w3, c.calls ++ [Call.serverGetByName opts.Name, Call.serverCreate opts,
            Call.serverGet opts.Name]⟩) ∧
    (∀ x, Call.awaitAction x ∉
      (runCreateServer cl opts p c).2.2.calls.drop c.calls.length) ∧
    MustWait (runCreateServer cl opts p c).2.1 = MustWait p ∧
    ∃ node,
      node = nodeRecord opts template m.PublicIPv4 (wrapInt ((i : Int) + offset)) ∧
      createNodesLoop cl optsTemplate clusterName suffix template datacenters offset
          1 i nodes p c
        = (Outcome.ok (nodes ++ [node]), { p with nodes := p.nodes ++ [node] },
            ⟨w3, c.calls ++ [Call.serverGetByName opts.Name, Call.serverCreate opts,
              Call.serverGet opts.Name]⟩) ∧
      (createNodesLoop cl' optsTemplate clusterName suffix template datacenters offset
          1 i nodes' p' c').1 = Outcome.ok (nodes' ++ [node]) ∧
      (createNodesLoop cl' optsTemplate clusterName suffix template datacenters offset
          1 i nodes' p' c').2.1.nodes = p'.nodes ++ [node] := by
  have hrun : runCreateServer cl opts p c
      = (Outcome.ok ⟨none, some m⟩, p,
          ⟨w3, c.calls ++ [Call.serverGetByName opts.Name, Call.serverCreate opts,
            Call.serverGet opts.Name]⟩) := by
    simp [runCreateServer, hget, hconflict, hfallback]
  have hrun' : runCreateServer cl' opts p' c'
      = (Outcome.ok ⟨a, some m⟩, { p' with wait := true },
          ⟨(cl'.waitAction a w2').2,
            c'.calls ++ [Call.serverGetByName opts.Name, Call.serverCreate opts,
              Call.awaitAction a]⟩) := by
    simp [runCreateServer, hget', hcreate', actionProgress, hwait']
  refine ⟨hrun, ?_, by rw [hrun], _, rfl, ?_, ?_, ?_⟩
  · intro x
    rw [hrun]
    simp
  · simp [createNodesLoop, createNodeAt, hopts, hrun]
  · simp [createNodesLoop, createNodeAt, hopts, hrun']
  · simp [createNodesLoop, createNodeAt, hopts, hrun']

/-- Witness for C5: the racing account against the fresh account, for the first worker of
cluster `c`. -/
theorem runCreateServer_conflict_same_node_witness :
    runCreateServer racingClient sampleOpts (NewHetznerProvider "c" "t") ⟨(), []⟩
      = (Outcome.ok ⟨none, some ⟨"c-worker-01", "192.0.2.1"⟩⟩, NewHetznerProvider "c" "t",
          ⟨(), [] ++ [Call.serverGetByName sampleOpts.Name, Call.serverCreate sampleOpts,
            Call.serverGet sampleOpts.Name]⟩) :=
  (runCreateServer_conflict_same_node racingClient freshClient
    (serverOptsTemplate "c" "worker" (workerTemplate "key1" "cx11")
      (some (sampleKey "key1")) "")
    "c" "worker" (workerTemplate "key1" "cx11") ["fsn1"] 0 1 sampleOpts
    (NewHetznerProvider "c" "t") (NewHetznerProvider "c" "t") ⟨(), []⟩ ⟨(), []⟩ [] []
    () () () () () "server name is already used" ⟨"c-worker-01", "192.0.2.1"⟩
    (some ⟨7⟩) (by decide) rfl rfl rfl rfl rfl rfl).1

/-- A create error of the structured type `hcloud.Error` whose code is not the naming
conflict is returned unchanged: no action is awaited and the provider is left as it was. -/
theorem runCreateServer_structured_error (cl : Client W) (opts : ServerCreateOpts)
    (p : Provider) (c : Cloud W) (w1 w2 : W) (code msg : String)
    (hget : cl.ServerGetByName opts.Name c.state = (Except.ok none, w1))
    (hcreate : cl.ServerCreate opts w1 = (Except.error (GoError.hcloud code msg), w2))
    (hcode : code ≠ "uniqueness_error") :
    runCreateServer cl opts p c
      = (Outcome.err (GoError.hcloud code msg), p,
          ⟨w2, c.calls ++ [Call.serverGetByName opts.Name, Call.serverCreate opts]⟩) := by
  simp [runCreateServer, hget, hcreate, hcode]

/-- A create error that is not of the type `hcloud.Error` makes the unchecked type assertion
`err.(hcloud.Error)` panic: the step does not return the error. -/
theorem runCreateServer_untyped_error (cl : Client W) (opts : ServerCreateOpts)
    (p : Provider) (c : Cloud W) (w1 w2 : W) (msg : String)
    (hget : cl.ServerGetByName opts.Name c.state = (Except.ok none, w1))
    (hcreate : cl.ServerCreate opts w1 = (Except.error (GoError.other msg), w2)) :
    runCreateServer cl opts p c
      = (Outcome.panic PanicKind.interfaceConversion, p,
          ⟨w2, c.calls ++ [Call.serverGetByName opts.Name, Call.serverCreate opts]⟩) := by
  simp [runCreateServer, hget, hcreate]

/-- C6, evaluated at the failing input: when the create request fails with the transport error
"connection refused" (not a value of `hcloud.Error`), `runCreateServer` does not return that
error but panics in the type assertion, and so does the enclosing `CreateWorkerNodes`. -/
theorem runCreateServer_transport_error_panics :
    runCreateServer brokenTransportClient sampleOpts (NewHetznerProvider "c" "t") ⟨(), []⟩
      = (Outcome.panic PanicKind.interfaceConversion, NewHetznerProvider "c" "t",
          ⟨(), [Call.serverGetByName "c-worker-01", Call.serverCreate sampleOpts]⟩) ∧
    runCreateServer brokenTransportClient sampleOpts (NewHetznerProvider "c" "t") ⟨(), []⟩
      ≠ (Outcome.err (GoError.other "connection refused"), NewHetznerProvider "c" "t",
          ⟨(), [Call.serverGetByName "c-worker-01", Call.serverCreate sampleOpts]⟩) ∧
    (CreateWorkerNodes brokenTransportClient "key1" "cx11" ["fsn1"] 1 0
        (NewHetznerProvider "c" "t") ⟨(), []⟩).1
      = Outcome.panic PanicKind.interfaceConversion := by
  refine ⟨rfl, ?_, rfl⟩
  intro h
  have := congrArg Prod.fst h
  simp [runCreateServer, brokenTransportClient] at this

theorem privateIpAddress_flags (template : Node) (nodeNumber : Int) :
    privateIpAddress template nodeNumber
      = privateIpAddress
          { Node.zero with IsMaster := template.IsMaster, IsEtcd := template.IsEtcd }
          nodeNumber := rfl

theorem identities_expectedNodes (clusterName suffix : String) (template : Node)
    (offset : Int) (ips : List String) :
    ∀ i, identities (expectedNodes clusterName suffix template offset i ips)
      = (List.range ips.length).map fun j =>
          (serverName clusterName suffix (wrapInt (((i + j : Nat) : Int) + offset)),
            privateIpAddress template (wrapInt (((i + j : Nat) : Int) + offset))) := by
  induction ips with
  | nil => intro i; rfl
  | cons ip ips ih =>
    intro i
    have ih1 := ih (i + 1)
    unfold identities at ih1 ⊢
    rw [List.length_cons, List.range_succ_eq_map, List.map_cons, List.map_map]
    simp only [expectedNodes, List.map_cons, ih1]
    congr 1
    apply List.map_congr_left
    intro j _
    have : i + 1 + j = i + (j + 1) := by omega
    simp [this]

theorem identities_CreateNodes (cl : Client W) (suffix : String) (template : Node)
    (datacenters : List String) (count offset : Int) (p : Provider) (c : Cloud W)
    (ns : List Node)
    (h : (CreateNodes cl suffix template datacenters count offset p c).1 = Outcome.ok ns) :
    identities ns
      = nodeIdentities p.clusterName suffix template.IsMaster template.IsEtcd count offset := by
  obtain ⟨ips, -, -, h3⟩ := CreateNodes_nodes cl suffix template datacenters count offset p c
  obtain ⟨hns, hlen⟩ := h3 ns h
  rw [hns, identities_expectedNodes, hlen]
  unfold nodeIdentities
  apply List.map_congr_left
  intro j _
  have : 1 + j = j + 1 := by omega
  rw [this, ← privateIpAddress_flags]

/-- C3: whenever `CreateNodes` succeeds, the names and private addresses of the returned nodes,
in order, are the value of a function (`nodeIdentities`) of the cluster name, the role suffix,
the role flags of the template, the count and the offset; hence a second successful invocation
with the same arguments, from any provider state, any account state and any zone list, returns
the same names and private addresses as the first. -/
theorem CreateNodes_identities_determined {W₁ W₂ : Type} (cl₁ : Client W₁) (cl₂ : Client W₂)
    (suffix : String) (t₁ t₂ : Node) (dcs₁ dcs₂ : List String) (count offset : Int)
    (p₁ p₂ : Provider) (c₁ : Cloud W₁) (c₂ : Cloud W₂) (ns₁ ns₂ : List Node)
    (hcluster : p₁.clusterName = p₂.clusterName)
    (hmaster : t₁.IsMaster = t₂.IsMaster) (hetcd : t₁.IsEtcd = t₂.IsEtcd)
    (h₁ : (CreateNodes cl₁ suffix t₁ dcs₁ count offset p₁ c₁).1 = Outcome.ok ns₁)
    (h₂ : (CreateNodes cl₂ suffix t₂ dcs₂ count offset p₂ c₂).1 = Outcome.ok ns₂) :
    identities ns₁
        = nodeIdentities p₁.clusterName suffix t₁.IsMaster t₁.IsEtcd count offset ∧
      identities ns₂ = identities ns₁ := by
  have e₁ := identities_CreateNodes cl₁ suffix t₁ dcs₁ count offset p₁ c₁ ns₁ h₁
  have e₂ := identities_CreateNodes cl₂ suffix t₂ dcs₂ count offset p₂ c₂ ns₂ h₂
  refine ⟨e₁, ?_⟩
  rw [e₁, e₂, hcluster, hmaster, hetcd]

/-- Witness for C3: two workers are created on the storing account, then the same call is
repeated on the resulting provider and account state, where both machines are fetched. -/
theorem CreateNodes_identities_determined_witness :
    identities sampleWorkers = nodeIdentities "c" "worker" false false 2 0 ∧
      identities sampleWorkers = identities sampleWorkers :=
  CreateNodes_identities_determined storeClient storeClient "worker"
    (workerTemplate "key1" "cx11") (workerTemplate "key1" "cx11")
    ["fsn1", "nbg1"] ["fsn1", "nbg1"] 2 0
    (NewHetznerProvider "c" "t")
    (CreateNodes storeClient "worker" (workerTemplate "key1" "cx11") ["fsn1", "nbg1"] 2 0
      (NewHetznerProvider "c" "t") ⟨[], []⟩).2.1
    ⟨[], []⟩
    (CreateNodes storeClient "worker" (workerTemplate "key1" "cx11") ["fsn1", "nbg1"] 2 0
      (NewHetznerProvider "c" "t") ⟨[], []⟩).2.2
    sampleWorkers sampleWorkers rfl rfl rfl (by decide) (by decide)

/-- C10: for a non-empty zone list, the zone lookup of iteration `i` succeeds with
`zones[i mod len(zones)]` (it neither divides by zero nor leaves the range), the request of
iteration `i` carries that zone whatever the offset is, a run of `CreateNodes` never panics
in the zone lookup, and every create request it issues belongs to an iteration `i` in
`1..count` and carries `zones[i mod len(zones)]`.  With count 0 the result does not depend on
the zone list at all and is not a panic, even for the empty zone list. -/
theorem CreateNodes_zone_round_robin (cl : Client W) (suffix : String) (template : Node)
    (datacenters : List String) (count offset : Int) (p : Provider) (c : Cloud W)
    (hne : datacenters ≠ []) :
    (∀ i : Nat, ∃ d, datacenters[i % datacenters.length]? = some d ∧
      datacenterAt datacenters i = Outcome.ok d ∧
      ∀ (optsTemplate : ServerCreateOpts) (clusterName sfx : String) (off : Int),
        serverOptsAt optsTemplate clusterName sfx datacenters off i
          = Outcome.ok { optsTemplate with
              Name := serverName clusterName sfx (wrapInt ((i : Int) + off))
              Datacenter := some d }) ∧
    (∀ k, (CreateNodes cl suffix template datacenters count offset p c).1 = Outcome.panic k →
      k ≠ PanicKind.divideByZero ∧ k ≠ PanicKind.indexOutOfRange) ∧
    (∃ new,
      (CreateNodes cl suffix template datacenters count offset p c).2.2.calls
        = c.calls ++ new ∧
      ∀ opts, Call.serverCreate opts ∈ new →
        ∃ i : Nat, 1 ≤ i ∧ (i : Int) ≤ count ∧
          opts.Name = serverName p.clusterName suffix (wrapInt ((i : Int) + offset)) ∧
          opts.Datacenter = datacenters[i % datacenters.length]? ∧
          opts.Datacenter ≠ none) ∧
    (∀ zones : List String,
      CreateNodes cl suffix template zones 0 offset p c
        = CreateNodes cl suffix template [] 0 offset p c ∧
      ∀ k, (CreateNodes cl suffix template zones 0 offset p c).1 ≠ Outcome.panic k) := by
  refine ⟨?_, ?_, ?_, ?_⟩
  · intro i
    obtain ⟨d, hd1, hd2⟩ := datacenterAt_ok datacenters i hne
    refine ⟨d, hd1, hd2, ?_⟩
    intro optsTemplate clusterName sfx off
    simp [serverOptsAt, hd2]
  · intro k hk
    rcases CreateNodes_panic cl suffix template datacenters count offset p c hne k hk
      with h | h <;> rw [h] <;> exact ⟨by decide, by decide⟩
  · obtain ⟨new, hnew, hall⟩ := CreateNodes_calls cl suffix template datacenters count
      offset p c
    refine ⟨new, hnew, ?_⟩
    intro opts hmem
    rcases hall _ hmem with h | h | ⟨j, hj1, hj2, hj⟩
    · simp at h
    · simp at h
    · rcases hj with h | h | ⟨a, h⟩ | ⟨o, ho, hname, -, hdc⟩
      · simp at h
      · simp at h
      · simp at h
      · simp only [Call.serverCreate.injEq] at ho
        subst ho
        obtain ⟨d, hd1, -⟩ := datacenterAt_ok datacenters j hne
        refine ⟨j, hj1, ?_, hname, hdc, by rw [hdc, hd1]; simp⟩
        have hpos : 0 ≤ count := by
          by_contra hneg
          have : count.toNat = 0 := Int.toNat_eq_zero.mpr (by omega)
          omega
        have := Int.toNat_of_nonneg hpos
        omega
  · intro zones
    have h1 := CreateNodes_zero_count cl suffix template zones offset p c
    exact ⟨h1.1, h1.2.1⟩

/-- Witness for C10: three zones and seven nodes (two wrap-arounds) on the fresh account,
where the zones requested are, in order, the second, the third, the first, and so on. -/
theorem CreateNodes_zone_round_robin_witness :
    ((CreateNodes freshClient "worker" (workerTemplate "key1" "cx11")
        ["fsn1", "nbg1", "hel1"] 7 0 (NewHetznerProvider "c" "t") ⟨(), []⟩).2.2.calls.filterMap
      fun call => match call with
        | Call.serverCreate opts => opts.Datacenter
        | _ => none)
      = ["nbg1", "hel1", "fsn1", "nbg1", "hel1", "fsn1", "nbg1"] ∧
    ∀ k, (CreateNodes freshClient "worker" (workerTemplate "key1" "cx11")
        ["fsn1", "nbg1", "hel1"] 7 0 (NewHetznerProvider "c" "t") ⟨(), []⟩).1
          = Outcome.panic k →
      k ≠ PanicKind.divideByZero ∧ k ≠ PanicKind.indexOutOfRange :=
  ⟨by decide,
    (CreateNodes_zone_round_robin freshClient "worker" (workerTemplate "key1" "cx11")
      ["fsn1", "nbg1", "hel1"] 7 0 (NewHetznerProvider "c" "t") ⟨(), []⟩ (by decide)).2.1⟩

theorem createNodesLoop_failing_step (cl : Client W) (optsTemplate : ServerCreateOpts)
    (clusterName suffix : String) (template : Node) (datacenters : List String)
    (offset : Int) (a i : Nat) (nodes created : List Node) (p p1 p2 : Provider)
    (c c1 c2 : Cloud W) (e : GoError)
    (hbefore : createNodesLoop cl optsTemplate clusterName suffix template datacenters offset
      a i nodes p c = (Outcome.ok created, p1, c1))
    (hfail : createNodesLoop cl optsTemplate clusterName suffix template datacenters offset
      (a + 1) i nodes p c = (Outcome.err e, p2, c2)) :
    createNodeAt cl optsTemplate clusterName suffix template datacenters offset (i + a) p1 c1
      = (Outcome.err e, p2, c2) := by
  rw [createNodesLoop_add, hbefore] at hfail
  simp only [createNodesLoop] at hfail
  rcases h : createNodeAt cl optsTemplate clusterName suffix template datacenters offset
    (i + a) p1 c1 with ⟨o, q, d⟩
  rw [h] at hfail
  cases o with
  | panic k => simp at hfail
  | ok node => simp at hfail
  | err e1 => simpa using hfail

/-- Fail-fast, stated on runs: when the call with count `k-1` succeeds with the batch
`created` and the call with count `k` returns the error `e`, the call with any count `≥ k`
returns `e` with the final provider and call log of the failing step, and the node set is the
old one followed by `created`. -/
theorem CreateNodes_fail_fast_of_runs (cl : Client W) (suffix : String) (template : Node)
    (datacenters : List String) (count offset : Int) (k : Nat) (p p1 p2 : Provider)
    (c c1 c2 : Cloud W) (created : List Node) (e : GoError)
    (hk1 : 1 ≤ k) (hk2 : (k : Int) ≤ count)
    (hbefore : CreateNodes cl suffix template datacenters ((k : Int) - 1) offset p c
      = (Outcome.ok created, p1, c1))
    (hfail : CreateNodes cl suffix template datacenters (k : Int) offset p c
      = (Outcome.err e, p2, c2)) :
    CreateNodes cl suffix template datacenters count offset p c = (Outcome.err e, p2, c2) ∧
    p2 = p1 ∧ p2.nodes = p.nodes ++ created ∧ created.length = k - 1 ∧
    (∃ new, c2.calls = c1.calls ++ new ∧
      ∀ call ∈ new, IsNodeCall p.clusterName suffix datacenters offset k call) ∧
    (∃ new, c2.calls = c.calls ++ new ∧
      ∀ call ∈ new, call = Call.sshKeyGet template.SSHKeyName ∨
        call = Call.readFile p.cloudInitFile ∨
        ∃ j, 1 ≤ j ∧ j ≤ k ∧ IsNodeCall p.clusterName suffix datacenters offset j call) := by
  have hmono := CreateNodes_err_mono cl suffix template datacenters (k : Int) count offset
    hk2 p p2 c c2 e hfail
  have hcalls := CreateNodes_calls cl suffix template datacenters (k : Int) offset p c
  rw [hfail] at hcalls
  simp only [Int.toNat_ofNat] at hcalls
  obtain ⟨ips, hn1, -, hn3⟩ := CreateNodes_nodes cl suffix template datacenters
    ((k : Int) - 1) offset p c
  rw [hbefore] at hn1 hn3
  obtain ⟨hcr, hlen⟩ := hn3 created rfl
  have hk' : ((k : Int) - 1).toNat = k - 1 := by omega
  have hstep : p2 = p1 ∧ ∃ new, c2.calls = c1.calls ++ new ∧
      ∀ call ∈ new, IsNodeCall p.clusterName suffix datacenters offset k call := by
    rcases hkey : cl.SSHKeyGet template.SSHKeyName c.state with ⟨r, w⟩
    cases r with
    | error err =>
      rw [CreateNodes_of_key_error _ _ _ _ _ _ _ _ _ _ hkey] at hbefore
      simp at hbefore
    | ok sshKey =>
      rw [CreateNodes_of_key_ok _ _ _ _ _ _ _ _ _ _ hkey] at hbefore hfail
      rw [hk'] at hbefore
      have hk'' : (k : Int).toNat = k - 1 + 1 := by
        rw [Int.toNat_ofNat]; omega
      rw [hk''] at hfail
      have hat := createNodesLoop_failing_step _ _ _ _ _ _ _ _ _ _ _ _ _ _ _ _ _ _
        hbefore hfail
      have hik : 1 + (k - 1) = k := by omega
      rw [hik] at hat
      have hprov := createNodeAt_err_provider cl _ p.clusterName suffix template datacenters
        offset k p1 c1 e (by rw [hat])
      rw [hat] at hprov
      obtain ⟨new, hnew, hall⟩ := createNodeAt_calls cl
        (serverOptsTemplate p.clusterName suffix template sshKey
          (readUserData cl p ⟨w, c.calls ++ [Call.sshKeyGet template.SSHKeyName]⟩).1)
        p.clusterName suffix template datacenters offset k p1 c1
      rw [hat] at hnew
      exact ⟨hprov, new, hnew, fun call hc => (hall call hc).isNodeCall⟩
  refine ⟨hmono, hstep.1, ?_, ?_, hstep.2, hcalls⟩
  · rw [hstep.1, hn1, hcr]
  · rw [hcr, expectedNodes_length, hlen, hk']

/-- Fail-fast, derived from the failing step: when the nodes `1..k-1` are resolved (the call
with count `k-1` succeeds with the batch `created`) and the resolve-or-create step of node `k`
returns the error `e` from the state reached, then the call returns `e` and no batch, its
final provider and call log are those of the failing step (every request issued belongs to a
node `j ≤ k`), and the node set is the old one followed by the `k-1` nodes `created`. -/
theorem CreateNodes_fail_fast_of_step_error (cl : Client W) (suffix : String)
    (template : Node) (datacenters : List String) (count offset : Int) (k : Nat)
    (p p1 p2 : Provider) (c c1 c2 : Cloud W) (created : List Node) (e : GoError)
    (sshKey : Option SSHKey) (w0 : W) (opts : ServerCreateOpts)
    (hk1 : 1 ≤ k) (hk2 : (k : Int) ≤ count)
    (hkey : cl.SSHKeyGet template.SSHKeyName c.state = (Except.ok sshKey, w0))
    (hbefore : CreateNodes cl suffix template datacenters ((k : Int) - 1) offset p c
      = (Outcome.ok created, p1, c1))
    (hopts : serverOptsAt
      (serverOptsTemplate p.clusterName suffix template sshKey
        (readUserData cl p ⟨w0, c.calls ++ [Call.sshKeyGet template.SSHKeyName]⟩).1)
      p.clusterName suffix datacenters offset k = Outcome.ok opts)
    (hstep : runCreateServer cl opts p1 c1 = (Outcome.err e, p2, c2)) :
    CreateNodes cl suffix template datacenters count offset p c = (Outcome.err e, p2, c2) ∧
    p2 = p1 ∧ p2.nodes = p.nodes ++ created ∧ created.length = k - 1 ∧
    (∃ new, c2.calls = c1.calls ++ new ∧
      ∀ call ∈ new, IsNodeCall p.clusterName suffix datacenters offset k call) ∧
    (∃ new, c2.calls = c.calls ++ new ∧
      ∀ call ∈ new, call = Call.sshKeyGet template.SSHKeyName ∨
        call = Call.readFile p.cloudInitFile ∨
        ∃ j, 1 ≤ j ∧ j ≤ k ∧ IsNodeCall p.clusterName suffix datacenters offset j call) := by
  have hfail : CreateNodes cl suffix template datacenters (k : Int) offset p c
      = (Outcome.err e, p2, c2) := by
    have hb := hbefore
    rw [CreateNodes_of_key_ok _ _ _ _ _ _ _ _ _ _ hkey] at hb ⊢
    have hk' : ((k : Int) - 1).toNat = k - 1 := by omega
    have hk'' : (k : Int).toNat = k - 1 + 1 := by
      rw [Int.toNat_ofNat]; omega
    rw [hk'] at hb
    rw [hk'', createNodesLoop_add, hb]
    have hik : 1 + (k - 1) = k := by omega
    simp only [createNodesLoop, hik, createNodeAt, hopts, hstep]
  exact CreateNodes_fail_fast_of_runs cl suffix template datacenters count offset k p p1 p2
    c c1 c2 created e hk1 hk2 hbefore hfail

/-- C4, evaluated at the failing input: on the account whose transport breaks at the third
create request, a batch of five workers does not return the error of the third node: the
call panics in the unchecked type assertion of `runCreateServer`.  The batch is aborted at
once (no request is issued for the nodes 04 and 05) and the two nodes recorded before stay
in the node set. -/
theorem CreateWorkerNodes_transport_error_at_third_node :
    (CreateWorkerNodes flakyTransportClient "key1" "cx11" ["fsn1", "nbg1"] 5 0
        (NewHetznerProvider "c" "t") ⟨2, []⟩).1
      = Outcome.panic PanicKind.interfaceConversion ∧
    (CreateWorkerNodes flakyTransportClient "key1" "cx11" ["fsn1", "nbg1"] 5 0
        (NewHetznerProvider "c" "t") ⟨2, []⟩).1
      ≠ Outcome.err (GoError.other "connection reset by peer") ∧
    identities (CreateWorkerNodes flakyTransportClient "key1" "cx11" ["fsn1", "nbg1"] 5 0
        (NewHetznerProvider "c" "t") ⟨2, []⟩).2.1.nodes
      = [("c-worker-01", "10.0.1.21"), ("c-worker-02", "10.0.1.22")] ∧
    createRequests (CreateWorkerNodes flakyTransportClient "key1" "cx11" ["fsn1", "nbg1"]
        5 0 (NewHetznerProvider "c" "t") ⟨2, []⟩).2.2.calls
      = [("c-worker-01", some "nbg1"), ("c-worker-02", some "fsn1"),
          ("c-worker-03", some "nbg1")] := by
  decide

theorem CreateNodes_recorded (cl : Client W) (suffix : String) (template : Node)
    (datacenters : List String) (count offset : Int) (p : Provider) (c : Cloud W)
    (j : Nat) (node : Node)
    (h : ((CreateNodes cl suffix template datacenters count offset p c).2.1.nodes.drop
      p.nodes.length)[j]? = some node) :
    ∃ ip, node = expectedNode p.clusterName suffix template
      (wrapInt (((j + 1 : Nat) : Int) + offset)) ip := by
  obtain ⟨ips, h1, -, -⟩ := CreateNodes_nodes cl suffix template datacenters count offset p c
  rw [h1, List.drop_left, expectedNodes_getElem?] at h
  cases hip : ips[j]? with
  | none => rw [hip] at h; simp at h
  | some ip =>
    rw [hip] at h
    simp only [Option.map_some', Option.some.injEq] at h
    refine ⟨ip, ?_⟩
    rw [← h]
    have : 1 + j = j + 1 := by omega
    rw [this]

theorem CreateEtcdNodes_provider (cl : Client W) (sshKeyName masterServerType : String)
    (datacenters : List String) (count : Int) (p : Provider) (c : Cloud W) :
    (CreateEtcdNodes cl sshKeyName masterServerType datacenters count p c).2.1
      = (CreateNodes cl "etcd" (etcdTemplate sshKeyName masterServerType) datacenters count 0
          p c).2.1 := rfl

theorem CreateMasterNodes_provider (cl : Client W) (sshKeyName masterServerType : String)
    (datacenters : List String) (count : Int) (isEtcd : Bool) (p : Provider) (c : Cloud W) :
    (CreateMasterNodes cl sshKeyName masterServerType datacenters count isEtcd p c).2.1
      = (CreateNodes cl "master" (masterTemplate sshKeyName masterServerType isEtcd)
          datacenters count 0 p c).2.1 := rfl

theorem privateIpAddress_worker (sshKeyName serverType : String) (n : Nat)
    (h1 : 1 ≤ n) (h9 : n ≤ 9) :
    privateIpAddress (workerTemplate sshKeyName serverType) (n : Int)
      = "10.0.1." ++ toString (n + 20) := by
  interval_cases n <;> rfl

theorem role_addresses_disjoint (a b n : Nat) (ha1 : 1 ≤ a) (ha9 : a ≤ 9) (hb1 : 1 ≤ b)
    (hb9 : b ≤ 9) (hn1 : 1 ≤ n) (hn9 : n ≤ 9) :
    "10.0.1." ++ toString a ≠ "10.0.1." ++ toString (b + 10) ∧
    "10.0.1." ++ toString a ≠ "10.0.1." ++ toString (n + 20) ∧
    "10.0.1." ++ toString (b + 10) ≠ "10.0.1." ++ toString (n + 20) := by
  refine ⟨?_, ?_, ?_⟩
  · interval_cases a <;> interval_cases b <;> decide
  · interval_cases a <;> interval_cases n <;> decide
  · interval_cases b <;> interval_cases n <;> decide

/-- C2 as stated fails: a master created by `CreateMasterNodes` with `isEtcd = true` and node
number 1 gets the private address `10.0.1.1`, not `10.0.1.11`, the same address as node
number 1 created by `CreateEtcdNodes`. -/
theorem master_with_etcd_flag_shares_etcd_address :
    ((CreateMasterNodes freshClient "key1" "cx11" ["fsn1"] 1 true
        (NewHetznerProvider "c" "t") ⟨(), []⟩).2.1.nodes.map
      fun n => (n.Name, n.PrivateIPAddress)) = [("c-master-01", "10.0.1.1")] ∧
    ((CreateEtcdNodes freshClient "key1" "cx11" ["fsn1"] 1
        (NewHetznerProvider "c" "t") ⟨(), []⟩).2.1.nodes.map
      fun n => (n.Name, n.PrivateIPAddress)) = [("c-etcd-01", "10.0.1.1")] ∧
    "10.0.1.1" ≠ "10.0.1.11" := by
  decide

theorem privateIpAddress_etcd_nat (sshKeyName serverType : String) (n : Nat)
    (h1 : 1 ≤ n) (h9 : n ≤ 9) :
    privateIpAddress (etcdTemplate sshKeyName serverType) (n : Int)
      = "10.0.1." ++ toString n := by
  interval_cases n <;> rfl

theorem privateIpAddress_master_nat (sshKeyName serverType : String) (isEtcd : Bool) (n : Nat)
    (h1 : 1 ≤ n) (h9 : n ≤ 9) :
    privateIpAddress (masterTemplate sshKeyName serverType isEtcd) (n : Int)
      = "10.0.1." ++ toString (if isEtcd then n else n + 10) := by
  cases isEtcd <;> interval_cases n <;> rfl

theorem etcdNodeAt_privateIp {n : Nat} {node : Node} (h : EtcdNodeAt n node)
    (h1 : 1 ≤ n) (h9 : n ≤ 9) :
    node.PrivateIPAddress = "10.0.1." ++ toString n := by
  obtain ⟨W, cl, key, ty, dcs, count, p, c, j, hrec, hn⟩ := h
  unfold newNodes at hrec
  rw [CreateEtcdNodes_provider] at hrec
  obtain ⟨ip, hnode⟩ := CreateNodes_recorded _ _ _ _ _ _ _ _ _ _ hrec
  rw [hnode]
  simp only [expectedNode]
  rw [hn]
  exact privateIpAddress_etcd_nat key ty n h1 h9

theorem masterNodeAt_privateIp {isEtcd : Bool} {n : Nat} {node : Node}
    (h : MasterNodeAt isEtcd n node) (h1 : 1 ≤ n) (h9 : n ≤ 9) :
    node.PrivateIPAddress = "10.0.1." ++ toString (if isEtcd then n else n + 10) := by
  obtain ⟨W, cl, key, ty, dcs, count, p, c, j, hrec, hn⟩ := h
  unfold newNodes at hrec
  rw [CreateMasterNodes_provider] at hrec
  obtain ⟨ip, hnode⟩ := CreateNodes_recorded _ _ _ _ _ _ _ _ _ _ hrec
  rw [hnode]
  simp only [expectedNode]
  rw [hn]
  exact privateIpAddress_master_nat key ty isEtcd n h1 h9

theorem workerNodeAt_privateIp {n : Nat} {node : Node} (h : WorkerNodeAt n node)
    (h1 : 1 ≤ n) (h9 : n ≤ 9) :
    node.PrivateIPAddress = "10.0.1." ++ toString (n + 20) := by
  obtain ⟨W, cl, key, ty, dcs, count, offset, p, c, j, hrec, hn⟩ := h
  unfold newNodes CreateWorkerNodes at hrec
  obtain ⟨ip, hnode⟩ := CreateNodes_recorded _ _ _ _ _ _ _ _ _ _ hrec
  rw [hnode]
  simp only [expectedNode]
  rw [hn]
  exact privateIpAddress_worker key ty n h1 h9

/-- C2, amended: for every node number `n` in `[1, 9]`, every node recorded by a call of
`CreateEtcdNodes` gets the private address `10.0.1.n`, every node recorded by
`CreateMasterNodes` with `isEtcd = false` gets `10.0.1.(n+10)` (with `isEtcd = true` it gets
`10.0.1.n`), and every node recorded by `CreateWorkerNodes` gets `10.0.1.(n+20)`;
consequently two nodes recorded through different entry points, a master being created with
`isEtcd = false`, each with a node number in `[1, 9]`, never have the same private address.
Each part holds on its own, for any account, key name, machine type and zone list. -/
theorem role_private_addresses :
    (∀ (n : Nat) (node : Node), 1 ≤ n → n ≤ 9 → EtcdNodeAt n node →
      node.PrivateIPAddress = "10.0.1." ++ toString n) ∧
    (∀ (n : Nat) (node : Node), 1 ≤ n → n ≤ 9 → MasterNodeAt false n node →
      node.PrivateIPAddress = "10.0.1." ++ toString (n + 10)) ∧
    (∀ (n : Nat) (node : Node), 1 ≤ n → n ≤ 9 → MasterNodeAt true n node →
      node.PrivateIPAddress = "10.0.1." ++ toString n) ∧
    (∀ (n : Nat) (node : Node), 1 ≤ n → n ≤ 9 → WorkerNodeAt n node →
      node.PrivateIPAddress = "10.0.1." ++ toString (n + 20)) ∧
    (∀ (a b : Nat) (x y : Node), 1 ≤ a → a ≤ 9 → 1 ≤ b → b ≤ 9 →
      EtcdNodeAt a x → MasterNodeAt false b y →
      x.PrivateIPAddress ≠ y.PrivateIPAddress) ∧
    (∀ (a b : Nat) (x y : Node), 1 ≤ a → a ≤ 9 → 1 ≤ b → b ≤ 9 →
      EtcdNodeAt a x → WorkerNodeAt b y →
      x.PrivateIPAddress ≠ y.PrivateIPAddress) ∧
    (∀ (a b : Nat) (x y : Node), 1 ≤ a → a ≤ 9 → 1 ≤ b → b ≤ 9 →
      MasterNodeAt false a x → WorkerNodeAt b y →
      x.PrivateIPAddress ≠ y.PrivateIPAddress) := by
  refine ⟨?_, ?_, ?_, ?_, ?_, ?_, ?_⟩
  · intro n node h1 h9 h
    exact etcdNodeAt_privateIp h h1 h9
  · intro n node h1 h9 h
    simpa using masterNodeAt_privateIp h h1 h9
  · intro n node h1 h9 h
    simpa using masterNodeAt_privateIp h h1 h9
  · intro n node h1 h9 h
    exact workerNodeAt_privateIp h h1 h9
  · intro a b x y ha1 ha9 hb1 hb9 hx hy
    rw [etcdNodeAt_privateIp hx ha1 ha9, masterNodeAt_privateIp hy hb1 hb9]
    simpa using (role_addresses_disjoint a b 1 ha1 ha9 hb1 hb9 (by decide) (by decide)).1
  · intro a b x y ha1 ha9 hb1 hb9 hx hy
    rw [etcdNodeAt_privateIp hx ha1 ha9, workerNodeAt_privateIp hy hb1 hb9]
    exact (role_addresses_disjoint a 1 b ha1 ha9 (by decide) (by decide) hb1 hb9).2.1
  · intro a b x y ha1 ha9 hb1 hb9 hx hy
    rw [masterNodeAt_privateIp hx ha1 ha9, workerNodeAt_privateIp hy hb1 hb9]
    simpa using (role_addresses_disjoint 1 a b (by decide) (by decide) ha1 ha9 hb1 hb9).2.2

/-- Witness for C2: the ninth etcd node and the first masters of cluster `c` on the fresh
account, and the ninth worker, of another key and machine type, on the quota account. -/
theorem role_private_addresses_witness :
    sampleEtcd9.PrivateIPAddress = "10.0.1." ++ toString 9 ∧
    sampleMaster1.PrivateIPAddress = "10.0.1." ++ toString (1 + 10) ∧
    sampleEtcdMaster1.PrivateIPAddress = "10.0.1." ++ toString 1 ∧
    sampleWorker9.PrivateIPAddress = "10.0.1." ++ toString (9 + 20) ∧
    sampleEtcd9.PrivateIPAddress ≠ sampleMaster1.PrivateIPAddress ∧
    sampleEtcd9.PrivateIPAddress ≠ sampleWorker9.PrivateIPAddress ∧
    sampleMaster1.PrivateIPAddress ≠ sampleWorker9.PrivateIPAddress :=
  have hE : EtcdNodeAt 9 sampleEtcd9 :=
    ⟨Unit, freshClient, "key1", "cx11", ["fsn1"], 9, NewHetznerProvider "c" "t", ⟨(), []⟩, 8,
      by decide, by decide⟩
  have hM : MasterNodeAt false 1 sampleMaster1 :=
    ⟨Unit, freshClient, "key1", "cx11", ["fsn1"], 1, NewHetznerProvider "c" "t", ⟨(), []⟩, 0,
      by decide, by decide⟩
  have hM' : MasterNodeAt true 1 sampleEtcdMaster1 :=
    ⟨Unit, freshClient, "key1", "cx11", ["fsn1"], 1, NewHetznerProvider "c" "t", ⟨(), []⟩, 0,
      by decide, by decide⟩
  have hW : WorkerNodeAt 9 sampleWorker9 :=
    ⟨Nat, quotaClient, "key2", "cx31", ["nbg1", "hel1"], 1, 8, NewHetznerProvider "c" "t",
      ⟨5, []⟩, 0, by decide, by decide⟩
  ⟨role_private_addresses.1 9 sampleEtcd9 (by decide) (by decide) hE,
    role_private_addresses.2.1 1 sampleMaster1 (by decide) (by decide) hM,
    role_private_addresses.2.2.1 1 sampleEtcdMaster1 (by decide) (by decide) hM',
    role_private_addresses.2.2.2.1 9 sampleWorker9 (by decide) (by decide) hW,
    role_private_addresses.2.2.2.2.1 9 1 sampleEtcd9 sampleMaster1 (by decide) (by decide)
      (by decide) (by decide) hE hM,
    role_private_addresses.2.2.2.2.2.1 9 9 sampleEtcd9 sampleWorker9 (by decide) (by decide)
      (by decide) (by decide) hE hW,
    role_private_addresses.2.2.2.2.2.2 1 9 sampleMaster1 sampleWorker9 (by decide) (by decide)
      (by decide) (by decide) hM hW⟩

/-! ## Accounts on which every resolution is a clean create -/

theorem runCreateServer_clean_create (cl : Client W)
    (hfetch : ∀ name w, ∃ w1, cl.ServerGetByName name w = (Except.ok none, w1))
    (hcreate : ∀ opts w, ∃ a s w1, cl.ServerCreate opts w = (Except.ok ⟨a, some s⟩, w1))
    (hwait : ∀ a w, (cl.waitAction a w).1 = none)
    (opts : ServerCreateOpts) (p : Provider) (c : Cloud W) :
    ∃ a s w1, runCreateServer cl opts p c
      = (Outcome.ok ⟨a, some s⟩, { p with wait := true },
          ⟨w1, c.calls ++ [Call.serverGetByName opts.Name, Call.serverCreate opts,
            Call.awaitAction a]⟩) := by
  obtain ⟨w1, h1⟩ := hfetch opts.Name c.state
  obtain ⟨a, s, w2, h2⟩ := hcreate opts w1
  refine ⟨a, s, (cl.waitAction a w2).2, ?_⟩
  simp [runCreateServer, h1, h2, actionProgress, hwait]

theorem createNodeAt_clean_create (cl : Client W)
    (hfetch : ∀ name w, ∃ w1, cl.ServerGetByName name w = (Except.ok none, w1))
    (hcreate : ∀ opts w, ∃ a s w1, cl.ServerCreate opts w = (Except.ok ⟨a, some s⟩, w1))
    (hwait : ∀ a w, (cl.waitAction a w).1 = none)
    (optsTemplate : ServerCreateOpts) (clusterName suffix : String) (template : Node)
    (datacenters : List String) (offset : Int) (i : Nat) (p : Provider) (c : Cloud W)
    (d : String) (hd : datacenterAt datacenters i = Outcome.ok d) :
    ∃ a ip w1, createNodeAt cl optsTemplate clusterName suffix template datacenters offset
        i p c
      = (Outcome.ok
          { Name := serverName clusterName suffix (wrapInt ((i : Int) + offset))
            Type_ := optsTemplate.ServerType
            IsMaster := template.IsMaster
            IsEtcd := template.IsEtcd
            IPAddress := ip
            PrivateIPAddress := privateIpAddress template (wrapInt ((i : Int) + offset))
            SSHKeyName := template.SSHKeyName },
          { p with wait := true },
          ⟨w1, c.calls ++
            [Call.serverGetByName (serverName clusterName suffix (wrapInt ((i : Int) + offset))),
              Call.serverCreate { optsTemplate with
                Name := serverName clusterName suffix (wrapInt ((i : Int) + offset))
                Datacenter := some d },
              Call.awaitAction a]⟩) := by
  obtain ⟨a, s, w1, h⟩ := runCreateServer_clean_create cl hfetch hcreate hwait
    { optsTemplate with
      Name := serverName clusterName suffix (wrapInt ((i : Int) + offset))
      Datacenter := some d } p c
  refine ⟨a, s.PublicIPv4, w1, ?_⟩
  simp [createNodeAt, serverOptsAt, hd, h, nodeRecord]

theorem createRequests_append (xs ys : List Call) :
    createRequests (xs ++ ys) = createRequests xs ++ createRequests ys := by
  simp [createRequests, List.filterMap_append]

theorem createNodesLoop_clean_create (cl : Client W)
    (hfetch : ∀ name w, ∃ w1, cl.ServerGetByName name w = (Except.ok none, w1))
    (hcreate : ∀ opts w, ∃ a s w1, cl.ServerCreate opts w = (Except.ok ⟨a, some s⟩, w1))
    (hwait : ∀ a w, (cl.waitAction a w).1 = none)
    (optsTemplate : ServerCreateOpts) (clusterName suffix : String) (template : Node)
    (datacenters : List String) (offset : Int)
    (hT : optsTemplate.ServerType = template.Type_) (hne : datacenters ≠ []) :
    ∀ (remaining i : Nat) (nodes : List Node) (p : Provider) (c : Cloud W),
      ∃ (ips : List String) (new : List Call) (p1 : Provider) (w1 : W),
        createNodesLoop cl optsTemplate clusterName suffix template datacenters offset
            remaining i nodes p c
          = (Outcome.ok (nodes ++ expectedNodes clusterName suffix template offset i ips),
              p1, ⟨w1, c.calls ++ new⟩) ∧
        ips.length = remaining ∧
        p1.nodes = p.nodes ++ expectedNodes clusterName suffix template offset i ips ∧
        p1.clusterName = p.clusterName ∧
        createRequests new = (List.range remaining).map fun j =>
          (serverName clusterName suffix (wrapInt (((i + j : Nat) : Int) + offset)),
            datacenters[(i + j) % datacenters.length]?) := by
  intro remaining
  induction remaining with
  | zero =>
    intro i nodes p c
    exact ⟨[], [], p, c.state, by simp [createNodesLoop, expectedNodes], rfl,
      by simp [expectedNodes], rfl, by simp [createRequests]⟩
  | succ remaining ih =>
    intro i nodes p c
    obtain ⟨d, hd1, hd2⟩ := datacenterAt_ok datacenters i hne
    obtain ⟨a, ip, w1, hstep⟩ := createNodeAt_clean_create cl hfetch hcreate hwait
      optsTemplate clusterName suffix template datacenters offset i p c d hd2
    simp only [createNodesLoop, hstep]
    obtain ⟨ips, new, p2, w2, hloop, hlen, hnodes, hcn, hreq⟩ := ih (i + 1)
      (nodes ++ [{ Name := serverName clusterName suffix (wrapInt ((i : Int) + offset))
                   Type_ := optsTemplate.ServerType
                   IsMaster := template.IsMaster
                   IsEtcd := template.IsEtcd
                   IPAddress := ip
                   PrivateIPAddress := privateIpAddress template (wrapInt ((i : Int) + offset))
                   SSHKeyName := template.SSHKeyName }])
      { nodes := p.nodes ++
          [{ Name := serverName clusterName suffix (wrapInt ((i : Int) + offset))
             Type_ := optsTemplate.ServerType
             IsMaster := template.IsMaster
             IsEtcd := template.IsEtcd
             IPAddress := ip
             PrivateIPAddress := privateIpAddress template (wrapInt ((i : Int) + offset))
             SSHKeyName := template.SSHKeyName }]
        clusterName := p.clusterName
        cloudInitFile := p.cloudInitFile
        wait := true
        token := p.token }
      ⟨w1, c.calls ++
        [Call.serverGetByName (serverName clusterName suffix (wrapInt ((i : Int) + offset))),
          Call.serverCreate { optsTemplate with
            Name := serverName clusterName suffix (wrapInt ((i : Int) + offset))
            Datacenter := some d },
          Call.awaitAction a]⟩
    refine ⟨ip :: ips,
      [Call.serverGetByName (serverName clusterName suffix (wrapInt ((i : Int) + offset))),
        Call.serverCreate { optsTemplate with
          Name := serverName clusterName suffix (wrapInt ((i : Int) + offset))
          Datacenter := some d },
        Call.awaitAction a] ++ new, p2, w2, ?_, by simp [hlen], ?_, hcn, ?_⟩
    · rw [hloop]
      simp [expectedNodes, expectedNode, hT]
    · rw [hnodes]
      simp [expectedNodes, expectedNode, hT]
    · rw [createRequests_append, hreq, List.range_succ_eq_map, List.map_cons, List.map_map]
      simp only [createRequests, List.filterMap_cons, List.filterMap_nil, List.cons_append,
        List.nil_append, Nat.add_zero, hd1]
      congr 1
      apply List.map_congr_left
      intro j _
      have : i + 1 + j = i + (j + 1) := by omega
      simp [this]

theorem CreateNodes_clean_create (cl : Client W)
    (hkey : ∀ name w, ∃ k w1, cl.SSHKeyGet name w = (Except.ok k, w1))
    (hfetch : ∀ name w, ∃ w1, cl.ServerGetByName name w = (Except.ok none, w1))
    (hcreate : ∀ opts w, ∃ a s w1, cl.ServerCreate opts w = (Except.ok ⟨a, some s⟩, w1))
    (hwait : ∀ a w, (cl.waitAction a w).1 = none)
    (suffix : String) (template : Node) (datacenters : List String) (count offset : Int)
    (p : Provider) (c : Cloud W) (hne : datacenters ≠ []) :
    ∃ (ips : List String) (new : List Call) (p1 : Provider) (w1 : W),
      CreateNodes cl suffix template datacenters count offset p c
        = (Outcome.ok (expectedNodes p.clusterName suffix template offset 1 ips),
            p1, ⟨w1, c.calls ++ new⟩) ∧
      ips.length = count.toNat ∧
      p1.nodes = p.nodes ++ expectedNodes p.clusterName suffix template offset 1 ips ∧
      p1.clusterName = p.clusterName ∧
      createRequests new = (List.range count.toNat).map fun j =>
        (serverName p.clusterName suffix (wrapInt (((1 + j : Nat) : Int) + offset)),
          datacenters[(1 + j) % datacenters.length]?) := by
  obtain ⟨k, w, hk⟩ := hkey template.SSHKeyName c.state
  rw [CreateNodes_of_key_ok _ _ _ _ _ _ _ _ _ _ hk]
  obtain ⟨ips, new, p1, w1, hloop, hlen, hnodes, hcn, hreq⟩ :=
    createNodesLoop_clean_create cl hfetch hcreate hwait
      (serverOptsTemplate p.clusterName suffix template k
        (readUserData cl p ⟨w, c.calls ++ [Call.sshKeyGet template.SSHKeyName]⟩).1)
      p.clusterName suffix template datacenters offset rfl hne count.toNat 1 [] p
      (readUserData cl p ⟨w, c.calls ++ [Call.sshKeyGet template.SSHKeyName]⟩).2
  rcases readUserData_calls cl p ⟨w, c.calls ++ [Call.sshKeyGet template.SSHKeyName]⟩
    with hr | hr
  · refine ⟨ips, Call.sshKeyGet template.SSHKeyName :: new, p1, w1, ?_, hlen, hnodes, hcn, ?_⟩
    · rw [hloop, hr]; simp
    · rw [← hreq]; simp [createRequests]
  · refine ⟨ips, Call.sshKeyGet template.SSHKeyName :: Call.readFile p.cloudInitFile :: new,
      p1, w1, ?_, hlen, hnodes, hcn, ?_⟩
    · rw [hloop, hr]; simp
    · rw [← hreq]; simp [createRequests]

/-- C1 as stated fails: on the fresh account, `CreateMasterNodes("key1", "cx11",
["fsn1", "nbg1"], 2, false)` in cluster `c` requests `c-master-01` in zone `nbg1` and
`c-master-02` in zone `fsn1`, not the other way round. -/
theorem first_master_requested_in_second_zone :
    createRequests (CreateMasterNodes freshClient "key1" "cx11" ["fsn1", "nbg1"] 2 false
        (NewHetznerProvider "c" "t") ⟨(), []⟩).2.2.calls
      = [("c-master-01", some "nbg1"), ("c-master-02", some "fsn1")] ∧
    createRequests (CreateMasterNodes freshClient "key1" "cx11" ["fsn1", "nbg1"] 2 false
        (NewHetznerProvider "c" "t") ⟨(), []⟩).2.2.calls
      ≠ [("c-master-01", some "fsn1"), ("c-master-02", some "nbg1")] := by
  decide

/-! ## Runs in which every resolution is a clean create -/

theorem readUserData_state (cl : Client W) (p : Provider) (c : Cloud W) :
    (readUserData cl p c).2.state
      = if p.cloudInitFile.length > 0 then (cl.ReadFile p.cloudInitFile c.state).2
        else c.state := by
  unfold readUserData
  split
  · split <;> simp_all
  · rfl

theorem createNodeAt_created (cl : Client W) (optsTemplate : ServerCreateOpts)
    (clusterName suffix : String) (template : Node) (datacenters : List String)
    (offset : Int) (i : Nat) (p : Provider) (c : Cloud W) (d : String) (w1 w2 : W)
    (a : Option Action) (s : Server)
    (hd : datacenterAt datacenters i = Outcome.ok d)
    (hget : cl.ServerGetByName (serverName clusterName suffix (wrapInt ((i : Int) + offset)))
      c.state = (Except.ok none, w1))
    (hcreate : cl.ServerCreate { optsTemplate with
        Name := serverName clusterName suffix (wrapInt ((i : Int) + offset))
        Datacenter := some d } w1 = (Except.ok ⟨a, some s⟩, w2))
    (hwait : (cl.waitAction a w2).1 = none) :
    createNodeAt cl optsTemplate clusterName suffix template datacenters offset i p c
      = (Outcome.ok
          { Name := serverName clusterName suffix (wrapInt ((i : Int) + offset))
            Type_ := optsTemplate.ServerType
            IsMaster := template.IsMaster
            IsEtcd := template.IsEtcd
            IPAddress := s.PublicIPv4
            PrivateIPAddress := privateIpAddress template (wrapInt ((i : Int) + offset))
            SSHKeyName := template.SSHKeyName },
          { p with wait := true },
          ⟨(cl.waitAction a w2).2, c.calls ++
            [Call.serverGetByName (serverName clusterName suffix (wrapInt ((i : Int) + offset))),
              Call.serverCreate { optsTemplate with
                Name := serverName clusterName suffix (wrapInt ((i : Int) + offset))
                Datacenter := some d },
              Call.awaitAction a]⟩) := by
  simp [createNodeAt, serverOptsAt, hd, runCreateServer, hget, hcreate, actionProgress, hwait,
    nodeRecord]

theorem createNodesLoop_cleanFrom (cl : Client W) (optsTemplate : ServerCreateOpts)
    (clusterName suffix : String) (template : Node) (datacenters : List String)
    (offset : Int) (hT : optsTemplate.ServerType = template.Type_) (hne : datacenters ≠ []) :
    ∀ (remaining i : Nat) (nodes : List Node) (p : Provider) (c : Cloud W),
      CleanFrom cl
        ((List.range remaining).map fun j =>
          serverName clusterName suffix (wrapInt (((i + j : Nat) : Int) + offset)))
        c.state →
      ∃ (ips : List String) (new : List Call) (p1 : Provider) (w1 : W),
        createNodesLoop cl optsTemplate clusterName suffix template datacenters offset
            remaining i nodes p c
          = (Outcome.ok (nodes ++ expectedNodes clusterName suffix template offset i ips),
              p1, ⟨w1, c.calls ++ new⟩) ∧
        ips.length = remaining ∧
        p1.nodes = p.nodes ++ expectedNodes clusterName suffix template offset i ips ∧
        p1.clusterName = p.clusterName ∧
        createRequests new = (List.range remaining).map fun j =>
          (serverName clusterName suffix (wrapInt (((i + j : Nat) : Int) + offset)),
            datacenters[(i + j) % datacenters.length]?) := by
  intro remaining
  induction remaining with
  | zero =>
    intro i nodes p c _
    exact ⟨[], [], p, c.state, by simp [createNodesLoop, expectedNodes], rfl,
      by simp [expectedNodes], rfl, by simp [createRequests]⟩
  | succ remaining ih =>
    intro i nodes p c hclean
    rw [List.range_succ_eq_map, List.map_cons, List.map_map] at hclean
    obtain ⟨w1, hget, hall⟩ := hclean
    obtain ⟨d, hd1, hd2⟩ := datacenterAt_ok datacenters i hne
    obtain ⟨a, s, w2, hcreate, hwait, hrest⟩ := hall
      { optsTemplate with
        Name := serverName clusterName suffix (wrapInt (((i + 0 : Nat) : Int) + offset))
        Datacenter := some d } rfl
    simp only [Nat.add_zero] at hget hcreate
    have hstep := createNodeAt_created cl optsTemplate clusterName suffix template
      datacenters offset i p c d w1 w2 a s hd2 hget hcreate hwait
    simp only [createNodesLoop, hstep]
    have hrest' : CleanFrom cl
        ((List.range remaining).map fun j =>
          serverName clusterName suffix (wrapInt (((i + 1 + j : Nat) : Int) + offset)))
        (cl.waitAction a w2).2 := by
      have e : (List.map ((fun j =>
            serverName clusterName suffix (wrapInt (((i + j : Nat) : Int) + offset))) ∘
            Nat.succ) (List.range remaining))
          = (List.range remaining).map fun j =>
            serverName clusterName suffix (wrapInt (((i + 1 + j : Nat) : Int) + offset)) := by
        apply List.map_congr_left
        intro j _
        have : i + 1 + j = i + (j + 1) := by omega
        simp [this]
      rw [← e]
      exact hrest
    obtain ⟨ips, new, p2, w3, hloop, hlen, hnodes, hcn, hreq⟩ := ih (i + 1)
      (nodes ++ [{ Name := serverName clusterName suffix (wrapInt ((i : Int) + offset))
                   Type_ := optsTemplate.ServerType
                   IsMaster := template.IsMaster
                   IsEtcd := template.IsEtcd
                   IPAddress := s.PublicIPv4
                   PrivateIPAddress := privateIpAddress template (wrapInt ((i : Int) + offset))
                   SSHKeyName := template.SSHKeyName }])
      { nodes := p.nodes ++
          [{ Name := serverName clusterName suffix (wrapInt ((i : Int) + offset))
             Type_ := optsTemplate.ServerType
             IsMaster := template.IsMaster
             IsEtcd := template.IsEtcd
             IPAddress := s.PublicIPv4
             PrivateIPAddress := privateIpAddress template (wrapInt ((i : Int) + offset))
             SSHKeyName := template.SSHKeyName }]
        clusterName := p.clusterName
        cloudInitFile := p.cloudInitFile
        wait := true
        token := p.token }
      ⟨(cl.waitAction a w2).2, c.calls ++
        [Call.serverGetByName (serverName clusterName suffix (wrapInt ((i : Int) + offset))),
          Call.serverCreate { optsTemplate with
            Name := serverName clusterName suffix (wrapInt ((i : Int) + offset))
            Datacenter := some d },
          Call.awaitAction a]⟩ hrest'
    refine ⟨s.PublicIPv4 :: ips,
      [Call.serverGetByName (serverName clusterName suffix (wrapInt ((i : Int) + offset))),
        Call.serverCreate { optsTemplate with
          Name := serverName clusterName suffix (wrapInt ((i : Int) + offset))
          Datacenter := some d },
        Call.awaitAction a] ++ new, p2, w3, ?_, by simp [hlen], ?_, hcn, ?_⟩
    · rw [hloop]
      simp [expectedNodes, expectedNode, hT]
    · rw [hnodes]
      simp [expectedNodes, expectedNode, hT]
    · rw [createRequests_append, hreq, List.range_succ_eq_map, List.map_cons, List.map_map]
      simp only [createRequests, List.filterMap_cons, List.filterMap_nil, List.cons_append,
        List.nil_append, Nat.add_zero, hd1]
      congr 1
      apply List.map_congr_left
      intro j _
      have : i + 1 + j = i + (j + 1) := by omega
      simp [this]

theorem CreateNodes_cleanFrom (cl : Client W) (suffix : String) (template : Node)
    (datacenters : List String) (count offset : Int) (p : Provider) (c : Cloud W)
    (key : Option SSHKey) (w0 : W) (hne : datacenters ≠ [])
    (hkey : cl.SSHKeyGet template.SSHKeyName c.state = (Except.ok key, w0))
    (hclean : CleanFrom cl
      ((List.range count.toNat).map fun j =>
        serverName p.clusterName suffix (wrapInt (((1 + j : Nat) : Int) + offset)))
      (if p.cloudInitFile.length > 0 then (cl.ReadFile p.cloudInitFile w0).2 else w0)) :
    ∃ (ips : List String) (new : List Call) (p1 : Provider) (w1 : W),
      CreateNodes cl suffix template datacenters count offset p c
        = (Outcome.ok (expectedNodes p.clusterName suffix template offset 1 ips),
            p1, ⟨w1, c.calls ++ new⟩) ∧
      ips.length = count.toNat ∧
      p1.nodes = p.nodes ++ expectedNodes p.clusterName suffix template offset 1 ips ∧
      p1.clusterName = p.clusterName ∧
      createRequests new = (List.range count.toNat).map fun j =>
        (serverName p.clusterName suffix (wrapInt (((1 + j : Nat) : Int) + offset)),
          datacenters[(1 + j) % datacenters.length]?) := by
  rw [CreateNodes_of_key_ok _ _ _ _ _ _ _ _ _ _ hkey]
  have hstate := readUserData_state cl p
    ⟨w0, c.calls ++ [Call.sshKeyGet template.SSHKeyName]⟩
  rw [← hstate] at hclean
  obtain ⟨ips, new, p1, w1, hloop, hlen, hnodes, hcn, hreq⟩ :=
    createNodesLoop_cleanFrom cl
      (serverOptsTemplate p.clusterName suffix template key
        (readUserData cl p ⟨w0, c.calls ++ [Call.sshKeyGet template.SSHKeyName]⟩).1)
      p.clusterName suffix template datacenters offset rfl hne count.toNat 1 [] p
      (readUserData cl p ⟨w0, c.calls ++ [Call.sshKeyGet template.SSHKeyName]⟩).2 hclean
  rcases readUserData_calls cl p ⟨w0, c.calls ++ [Call.sshKeyGet template.SSHKeyName]⟩
    with hr | hr
  · refine ⟨ips, Call.sshKeyGet template.SSHKeyName :: new, p1, w1, ?_, hlen, hnodes, hcn, ?_⟩
    · rw [hloop, hr]; simp
    · rw [← hreq]; simp [createRequests]
  · refine ⟨ips, Call.sshKeyGet template.SSHKeyName :: Call.readFile p.cloudInitFile :: new,
      p1, w1, ?_, hlen, hnodes, hcn, ?_⟩
    · rw [hloop, hr]; simp
    · rw [← hreq]; simp [createRequests]

/-- C1, amended: from a provider with cluster name `c` (not containing the placeholder `@idx`)
and an empty node set, on an account where the key `key1` is found and, along the run, the
fetch by name of `c-master-01` and then of `c-master-02` finds nothing and the create request
for each and its action succeed (`CleanFrom`),
`CreateMasterNodes("key1", "cx11", ["fsn1", "nbg1"], 2, false)` returns a nil error and
records exactly two nodes, in this order: `c-master-01` with private address `10.0.1.11`,
requested in zone `nbg1`, and `c-master-02` with private address `10.0.1.12`, requested in
zone `fsn1`. -/
theorem CreateMasterNodes_two_masters (cl : Client W) (p : Provider) (c : Cloud W)
    (key : SSHKey) (w0 : W)
    (hkey : cl.SSHKeyGet "key1" c.state = (Except.ok (some key), w0))
    (hclean : CleanFrom cl
      [p.clusterName ++ "-master-01", p.clusterName ++ "-master-02"]
      (if p.cloudInitFile.length > 0 then (cl.ReadFile p.cloudInitFile w0).2 else w0))
    (hname : hasPlaceholder p.clusterName = false) (hempty : p.nodes = []) :
    ∃ (n1 n2 : Node) (p1 : Provider) (c1 : Cloud W),
      CreateMasterNodes cl "key1" "cx11" ["fsn1", "nbg1"] 2 false p c
        = (Outcome.ok (), p1, c1) ∧
      p1.nodes = [n1, n2] ∧
      n1.Name = p.clusterName ++ "-master-01" ∧ n1.PrivateIPAddress = "10.0.1.11" ∧
      n2.Name = p.clusterName ++ "-master-02" ∧ n2.PrivateIPAddress = "10.0.1.12" ∧
      n1.IsMaster = true ∧ n2.IsMaster = true ∧
      createRequests (c1.calls.drop c.calls.length)
        = [(p.clusterName ++ "-master-01", some "nbg1"),
            (p.clusterName ++ "-master-02", some "fsn1")] := by
  have hph : hasPlaceholder (p.clusterName ++ "-" ++ "master" ++ "-") = false :=
    hasPlaceholder_template p.clusterName "master" hname (by decide)
  have hname1 : serverName p.clusterName "master" (wrapInt (((1 + 0 : Nat) : Int) + 0))
      = p.clusterName ++ "-master-01" := by
    rw [serverName_of_no_placeholder _ _ _ hph]
    apply String.ext
    simp [String.data_append]
    rfl
  have hname2 : serverName p.clusterName "master" (wrapInt (((1 + 1 : Nat) : Int) + 0))
      = p.clusterName ++ "-master-02" := by
    rw [serverName_of_no_placeholder _ _ _ hph]
    apply String.ext
    simp [String.data_append]
    rfl
  have h2 : (2 : Int).toNat = 2 := rfl
  have hclean' : CleanFrom cl
      ((List.range (2 : Int).toNat).map fun j =>
        serverName p.clusterName "master" (wrapInt (((1 + j : Nat) : Int) + 0)))
      (if p.cloudInitFile.length > 0 then (cl.ReadFile p.cloudInitFile w0).2 else w0) := by
    rw [h2]
    simp only [List.range_succ, List.range_zero, List.nil_append, List.cons_append,
      List.map_cons, List.map_nil, hname1, hname2]
    exact hclean
  obtain ⟨ips, new, p1, w1, hrun, hlen, hnodes, -, hreq⟩ :=
    CreateNodes_cleanFrom cl "master" (masterTemplate "key1" "cx11" false)
      ["fsn1", "nbg1"] 2 0 p c (some key) w0 (by decide) hkey hclean'
  have hlen2 : ips.length = 2 := hlen
  obtain ⟨ip1, ip2, rfl⟩ : ∃ ip1 ip2, ips = [ip1, ip2] := by
    match ips, hlen2 with
    | [a, b], _ => exact ⟨a, b, rfl⟩
  refine ⟨expectedNode p.clusterName "master" (masterTemplate "key1" "cx11" false)
      (wrapInt (((1 + 0 : Nat) : Int) + 0)) ip1,
    expectedNode p.clusterName "master" (masterTemplate "key1" "cx11" false)
      (wrapInt (((1 + 1 : Nat) : Int) + 0)) ip2,
    p1, ⟨w1, c.calls ++ new⟩, ?_, ?_, hname1, rfl, hname2, rfl, rfl, rfl, ?_⟩
  · simp only [CreateMasterNodes, hrun, Outcome.toError]
  · rw [hnodes, hempty]
    rfl
  · simp only [List.drop_left]
    rw [hreq, h2]
    simp only [List.range_succ, List.range_zero, List.nil_append, List.cons_append,
      List.map_cons, List.map_nil, hname1, hname2]
    rfl

/-- Witness for C1: the storing account without machines and cluster name `c`; the second
fetch happens in an account that already holds `c-master-01`. -/
theorem CreateMasterNodes_two_masters_witness :
    ∃ (n1 n2 : Node) (p1 : Provider) (c1 : Cloud (List Server)),
      CreateMasterNodes storeClient "key1" "cx11" ["fsn1", "nbg1"] 2 false
          (NewHetznerProvider "c" "t") ⟨[], []⟩
        = (Outcome.ok (), p1, c1) ∧
      p1.nodes = [n1, n2] ∧
      n1.Name = (NewHetznerProvider "c" "t").clusterName ++ "-master-01" ∧
      n1.PrivateIPAddress = "10.0.1.11" ∧
      n2.Name = (NewHetznerProvider "c" "t").clusterName ++ "-master-02" ∧
      n2.PrivateIPAddress = "10.0.1.12" ∧
      n1.IsMaster = true ∧ n2.IsMaster = true ∧
      createRequests (c1.calls.drop ([] : List Call).length)
        = [((NewHetznerProvider "c" "t").clusterName ++ "-master-01", some "nbg1"),
            ((NewHetznerProvider "c" "t").clusterName ++ "-master-02", some "fsn1")] :=
  CreateMasterNodes_two_masters storeClient (NewHetznerProvider "c" "t") ⟨[], []⟩
    (sampleKey "key1") [] rfl
    ⟨[], rfl, fun opts h1 =>
      ⟨some ⟨1⟩, ⟨opts.Name, "192.0.2.1"⟩, [⟨opts.Name, "192.0.2.1"⟩], rfl, rfl,
        ⟨[⟨opts.Name, "192.0.2.1"⟩], by simp [storeClient, h1]; decide, fun opts' h2 =>
          ⟨some ⟨2⟩, ⟨opts'.Name, "192.0.2.2"⟩,
            [⟨opts.Name, "192.0.2.1"⟩, ⟨opts'.Name, "192.0.2.2"⟩],
            by simp [storeClient, h1, h2]; rfl, rfl, trivial⟩⟩⟩⟩
    (by decide) rfl

/-- For a cluster name without the placeholder, scaling the worker pool out in two calls
(count 2 with offset 0, then count 2 with offset 2) on an account where the key is found and
every resolution is a clean create records the workers 01 to 04 with the private addresses
`10.0.1.21` to `10.0.1.24`; the second call returns the nodes 03 and 04 and keeps the first
two. -/
theorem CreateWorkerNodes_scale_out_of_no_placeholder (cl : Client W) (p : Provider)
    (c : Cloud W) (sshKeyName workerServerType : String) (datacenters : List String)
    (hkey : ∀ name w, ∃ k w1, cl.SSHKeyGet name w = (Except.ok (some k), w1))
    (hfetch : ∀ name w, ∃ w1, cl.ServerGetByName name w = (Except.ok none, w1))
    (hcreate : ∀ opts w, ∃ a s w1, cl.ServerCreate opts w = (Except.ok ⟨a, some s⟩, w1))
    (hwait : ∀ a w, (cl.waitAction a w).1 = none)
    (hname : hasPlaceholder p.clusterName = false) (hempty : p.nodes = [])
    (hne : datacenters ≠ []) :
    ∃ (n1 n2 n3 n4 : Node) (p1 p2 : Provider) (c1 c2 : Cloud W),
      CreateWorkerNodes cl sshKeyName workerServerType datacenters 2 0 p c
        = (Outcome.ok [n1, n2], p1, c1) ∧
      CreateWorkerNodes cl sshKeyName workerServerType datacenters 2 2 p1 c1
        = (Outcome.ok [n3, n4], p2, c2) ∧
      p1.nodes = [n1, n2] ∧ p2.nodes = [n1, n2, n3, n4] ∧
      identities [n1, n2, n3, n4]
        = [(p.clusterName ++ "-worker-01", "10.0.1.21"),
            (p.clusterName ++ "-worker-02", "10.0.1.22"),
            (p.clusterName ++ "-worker-03", "10.0.1.23"),
            (p.clusterName ++ "-worker-04", "10.0.1.24")] ∧
      (∀ n ∈ [n1, n2, n3, n4], n.IsMaster = false ∧ n.IsEtcd = false) := by
  have hkey : ∀ name w, ∃ k w1, cl.SSHKeyGet name w = (Except.ok k, w1) := by
    intro name w
    obtain ⟨k, w1, h⟩ := hkey name w
    exact ⟨some k, w1, h⟩
  obtain ⟨ips, new, p1, w1, hrun, hlen, hnodes, hcn, -⟩ :=
    CreateNodes_clean_create cl hkey hfetch hcreate hwait "worker"
      (workerTemplate sshKeyName workerServerType) datacenters 2 0 p c hne
  obtain ⟨ips', new', p2, w2, hrun', hlen', hnodes', -, -⟩ :=
    CreateNodes_clean_create cl hkey hfetch hcreate hwait "worker"
      (workerTemplate sshKeyName workerServerType) datacenters 2 2 p1
      ⟨w1, c.calls ++ new⟩ hne
  have hlen2 : ips.length = 2 := hlen
  have hlen2' : ips'.length = 2 := hlen'
  obtain ⟨ip1, ip2, rfl⟩ : ∃ ip1 ip2, ips = [ip1, ip2] := by
    match ips, hlen2 with
    | [a, b], _ => exact ⟨a, b, rfl⟩
  obtain ⟨ip3, ip4, rfl⟩ : ∃ ip3 ip4, ips' = [ip3, ip4] := by
    match ips', hlen2' with
    | [a, b], _ => exact ⟨a, b, rfl⟩
  have hph : hasPlaceholder (p.clusterName ++ "-" ++ "worker" ++ "-") = false :=
    hasPlaceholder_template p.clusterName "worker" hname (by decide)
  have hname_of : ∀ (n : Int) (s : String), "-worker-" ++ sprintfD02 n = s →
      serverName p.clusterName "worker" n = p.clusterName ++ s := by
    intro n s hs
    rw [serverName_of_no_placeholder _ _ _ hph, ← hs]
    apply String.ext
    simp [String.data_append]
  have haddr : ∀ (x : Int) (n : Nat) (s : String), x = (n : Int) → 1 ≤ n → n ≤ 9 →
      "10.0.1." ++ toString (n + 20) = s →
      privateIpAddress (workerTemplate sshKeyName workerServerType) x = s := by
    intro x n s hx h1 h9 hs
    rw [hx, ← hs]
    exact privateIpAddress_worker sshKeyName workerServerType n h1 h9
  have ha1 := haddr (wrapInt (((1 : Nat) : Int) + 0)) 1 "10.0.1.21" (by decide) (by decide)
    (by decide) (by decide)
  have ha2 := haddr (wrapInt (((1 + 1 : Nat) : Int) + 0)) 2 "10.0.1.22" (by decide)
    (by decide) (by decide) (by decide)
  have ha3 := haddr (wrapInt (((1 : Nat) : Int) + 2)) 3 "10.0.1.23" (by decide) (by decide)
    (by decide) (by decide)
  have ha4 := haddr (wrapInt (((1 + 1 : Nat) : Int) + 2)) 4 "10.0.1.24" (by decide)
    (by decide) (by decide) (by decide)
  rw [hcn] at hrun' hnodes'
  refine ⟨_, _, _, _, p1, p2, ⟨w1, c.calls ++ new⟩, ⟨w2, (c.calls ++ new) ++ new'⟩,
    hrun, hrun', ?_, ?_, ?_, ?_⟩
  · rw [hnodes, hempty]; rfl
  · rw [hnodes', hnodes, hempty]; rfl
  · simp only [identities, List.map_cons, List.map_nil, expectedNode]
    rw [hname_of (wrapInt (((1 : Nat) : Int) + 0)) "-worker-01" (by decide),
      hname_of (wrapInt (((1 + 1 : Nat) : Int) + 0)) "-worker-02" (by decide),
      hname_of (wrapInt (((1 : Nat) : Int) + 2)) "-worker-03" (by decide),
      hname_of (wrapInt (((1 + 1 : Nat) : Int) + 2)) "-worker-04" (by decide),
      ha1, ha2, ha3, ha4]
  · intro n hn
    simp only [List.mem_cons, List.mem_singleton, List.not_mem_nil, or_false] at hn
    rcases hn with h | h | h | h <;> rw [h] <;> exact ⟨rfl, rfl⟩

/-- C8, evaluated at the failing input: in the cluster named `a@idx` the two calls of
`CreateWorkerNodes` (count 2 with offset 0, then count 2 with offset 2) on the fresh account
record four workers with the expected private addresses whose names are `a01-worker-@idx` to
`a04-worker-@idx`, not `a@idx-worker-01` to `a@idx-worker-04`. -/
theorem CreateWorkerNodes_scale_out_placeholder_cluster :
    identities (CreateWorkerNodes freshClient "key1" "cx11" ["fsn1", "nbg1"] 2 2
        (CreateWorkerNodes freshClient "key1" "cx11" ["fsn1", "nbg1"] 2 0
          (NewHetznerProvider "a@idx" "t") ⟨(), []⟩).2.1
        (CreateWorkerNodes freshClient "key1" "cx11" ["fsn1", "nbg1"] 2 0
          (NewHetznerProvider "a@idx" "t") ⟨(), []⟩).2.2).2.1.nodes
      = [("a01-worker-@idx", "10.0.1.21"), ("a02-worker-@idx", "10.0.1.22"),
          ("a03-worker-@idx", "10.0.1.23"), ("a04-worker-@idx", "10.0.1.24")] ∧
    identities (CreateWorkerNodes freshClient "key1" "cx11" ["fsn1", "nbg1"] 2 2
        (CreateWorkerNodes freshClient "key1" "cx11" ["fsn1", "nbg1"] 2 0
          (NewHetznerProvider "a@idx" "t") ⟨(), []⟩).2.1
        (CreateWorkerNodes freshClient "key1" "cx11" ["fsn1", "nbg1"] 2 0
          (NewHetznerProvider "a@idx" "t") ⟨(), []⟩).2.2).2.1.nodes
      ≠ [("a@idx-worker-01", "10.0.1.21"), ("a@idx-worker-02", "10.0.1.22"),
          ("a@idx-worker-03", "10.0.1.23"), ("a@idx-worker-04", "10.0.1.24")] := by
  decide

/-- C9, evaluated at the failing input: for the cluster name `a@idx`, the role suffix `master`
and node number 1 the substitution replaces the placeholder inside the cluster name, so the
node is named `a01-master-@idx` and not `a@idx-master-01`, also in the node set recorded by
`CreateMasterNodes`; for the cluster name `c` the name is `c-master-01`. -/
theorem serverName_placeholder_cluster :
    serverName "a@idx" "master" (wrapInt (((1 : Nat) : Int) + 0)) = "a01-master-@idx" ∧
    serverName "a@idx" "master" (wrapInt (((1 : Nat) : Int) + 0))
      ≠ "a@idx" ++ "-" ++ "master" ++ "-" ++ sprintfD02 1 ∧
    "a@idx" ++ "-" ++ "master" ++ "-" ++ sprintfD02 1 = "a@idx-master-01" ∧
    (CreateMasterNodes freshClient "key1" "cx11" ["fsn1"] 1 false
        (NewHetznerProvider "a@idx" "t") ⟨(), []⟩).2.1.nodes.map (fun n => n.Name)
      = ["a01-master-@idx"] ∧
    serverName "c" "master" (wrapInt (((1 : Nat) : Int) + 0)) = "c-master-01" := by
  decide

end Hetzner
